import Mathlib

/-!
Verification of the event-validation-and-orchestration core of the
network-all-aws-connector worker.

The worker decodes a JSON payload into an `Event`, validates it, dispatches on
the second dot-segment of the message subject to a Create / Update / Delete /
Get handler talking to the EC2 API, and publishes the outcome to
`<subject>.done` or `<subject>.error`.

The embedding models:
- the JSON wire format (a small JSON value type, a parser and a renderer
  following Go's `encoding/json` behaviour on this struct: fixed field order,
  `omitempty` on `network_aws_id` and `error_message`, merge-into-existing
  semantics on decode, `null` tolerated, unknown fields ignored, type
  mismatches rejected);
- the `Event` struct and its methods (`New`, `Validate`, `Process`, `Error`,
  `Complete`, `Create`, `Update`, `Delete`, `Get` and the EC2 helpers);
- the effectful world as a trace of effects (bus publications, cloud calls,
  sleeps) produced against an explicit `Cloud` environment of per-call
  responses; the unbounded interface-removal poll loop is indexed by fuel,
  with a distinguished "still polling" outcome.
-/

namespace NetworkAws

/-- JSON values as decoded by `encoding/json`; object members keep their
textual order, numbers keep their raw lexeme. -/
inductive JVal where
  | str (s : String)
  | bool (b : Bool)
  | num (lexeme : String)
  | null
  | obj (members : List (String × JVal))
  | arr (elems : List JVal)
deriving Repr

/-- JSON insignificant whitespace. -/
def isWs (c : Char) : Bool :=
  c = ' ' || c = '\t' || c = '\n' || c = '\r'

/-- Drop leading JSON whitespace. -/
def skipWs : List Char → List Char
  | [] => []
  | c :: cs => if isWs c then skipWs cs else c :: cs

/-- Value of a hexadecimal digit. -/
def hexVal (c : Char) : Option Nat :=
  if '0' ≤ c ∧ c ≤ '9' then some (c.toNat - '0'.toNat)
  else if 'a' ≤ c ∧ c ≤ 'f' then some (c.toNat - 'a'.toNat + 10)
  else if 'A' ≤ c ∧ c ≤ 'F' then some (c.toNat - 'A'.toNat + 10)
  else none

/-- Character for a code point; like Go, an invalid scalar value (for example
an unpaired surrogate from a `\uXXXX` escape) becomes U+FFFD. -/
def charFromCode (n : Nat) : Char :=
  if n.isValidChar then Char.ofNat n else '�'

/-- Read the body of a JSON string after the opening quote, returning the
decoded characters and the input past the closing quote.  Raw control
characters are rejected, escape sequences are decoded. -/
def parseStrChars : List Char → Option (List Char × List Char)
  | [] => none
  | c :: cs =>
    if c = '"' then some ([], cs)
    else if c = '\\' then
      match cs with
      | [] => none
      | e :: cs2 =>
        if e = '"' ∨ e = '\\' ∨ e = '/' then
          (parseStrChars cs2).map (fun p => (e :: p.1, p.2))
        else if e = 'n' then (parseStrChars cs2).map (fun p => ('\n' :: p.1, p.2))
        else if e = 't' then (parseStrChars cs2).map (fun p => ('\t' :: p.1, p.2))
        else if e = 'r' then (parseStrChars cs2).map (fun p => ('\r' :: p.1, p.2))
        else if e = 'b' then (parseStrChars cs2).map (fun p => ('\x08' :: p.1, p.2))
        else if e = 'f' then (parseStrChars cs2).map (fun p => ('\x0c' :: p.1, p.2))
        else if e = 'u' then
          match cs2 with
          | h1 :: h2 :: h3 :: h4 :: cs3 =>
            match hexVal h1, hexVal h2, hexVal h3, hexVal h4 with
            | some a, some b, some c, some d =>
              (parseStrChars cs3).map
                (fun p => (charFromCode (a * 4096 + b * 256 + c * 16 + d) :: p.1, p.2))
            | _, _, _, _ => none
          | _ => none
        else none
    else if c.toNat < 0x20 then none
    else (parseStrChars cs).map (fun p => (c :: p.1, p.2))

/-- Longest leading run of decimal digits. -/
def takeDigits : List Char → List Char × List Char
  | [] => ([], [])
  | c :: cs =>
    if c.isDigit then
      let p := takeDigits cs
      (c :: p.1, p.2)
    else ([], c :: cs)

/-- Parse a JSON number (optional sign, integer part without leading zeros,
optional fraction, optional exponent), keeping the raw lexeme. -/
def parseNum (l : List Char) : Option (JVal × List Char) :=
  let sign : List Char × List Char :=
    match l with
    | '-' :: cs => (['-'], cs)
    | _ => ([], l)
  let ip := takeDigits sign.2
  if ip.1.isEmpty then none
  else if ip.1.length > 1 ∧ ip.1.head? = some '0' then none
  else
    let frac : Option (List Char × List Char) :=
      match ip.2 with
      | '.' :: cs =>
        let fd := takeDigits cs
        if fd.1.isEmpty then none else some ('.' :: fd.1, fd.2)
      | _ => some ([], ip.2)
    match frac with
    | none => none
    | some fr =>
      let ex : Option (List Char × List Char) :=
        match fr.2 with
        | 'e' :: '+' :: cs =>
          let ed := takeDigits cs
          if ed.1.isEmpty then none else some ('e' :: '+' :: ed.1, ed.2)
        | 'e' :: '-' :: cs =>
          let ed := takeDigits cs
          if ed.1.isEmpty then none else some ('e' :: '-' :: ed.1, ed.2)
        | 'e' :: cs =>
          let ed := takeDigits cs
          if ed.1.isEmpty then none else some ('e' :: ed.1, ed.2)
        | 'E' :: '+' :: cs =>
          let ed := takeDigits cs
          if ed.1.isEmpty then none else some ('E' :: '+' :: ed.1, ed.2)
        | 'E' :: '-' :: cs =>
          let ed := takeDigits cs
          if ed.1.isEmpty then none else some ('E' :: '-' :: ed.1, ed.2)
        | 'E' :: cs =>
          let ed := takeDigits cs
          if ed.1.isEmpty then none else some ('E' :: ed.1, ed.2)
        | _ => some ([], fr.2)
      match ex with
      | none => none
      | some e2 =>
        some (.num (String.mk (sign.1 ++ ip.1 ++ fr.1 ++ e2.1)), e2.2)

/-- Match an expected character sequence. -/
def expectChars : List Char → List Char → Option (List Char)
  | [], l => some l
  | p :: ps, c :: cs => if c = p then expectChars ps cs else none
  | _ :: _, [] => none

mutual

/-- Parse one JSON value.  Fuel bounds nesting; the top entry point supplies
one unit of fuel per input character, which always suffices because each
recursive step first consumes at least one character. -/
def parseVal : Nat → List Char → Option (JVal × List Char)
  | 0, _ => none
  | f + 1, l =>
    match skipWs l with
    | [] => none
    | c :: cs =>
      if c = '"' then
        match parseStrChars cs with
        | some p => some (.str (String.mk p.1), p.2)
        | none => none
      else if c = '\x7b' then
        match parseMembers f true cs with
        | some p => some (.obj p.1, p.2)
        | none => none
      else if c = '[' then
        match parseElems f true cs with
        | some p => some (.arr p.1, p.2)
        | none => none
      else if c = 't' then
        match expectChars ['r', 'u', 'e'] cs with
        | some r => some (.bool true, r)
        | none => none
      else if c = 'f' then
        match expectChars ['a', 'l', 's', 'e'] cs with
        | some r => some (.bool false, r)
        | none => none
      else if c = 'n' then
        match expectChars ['u', 'l', 'l'] cs with
        | some r => some (.null, r)
        | none => none
      else parseNum (c :: cs)

/-- Parse object members after the opening brace (`allowClose`: a closing
brace may come first, which is only legal before the first member). -/
def parseMembers : Nat → Bool → List Char →
    Option (List (String × JVal) × List Char)
  | 0, _, _ => none
  | f + 1, allowClose, l =>
    match skipWs l with
    | [] => none
    | c :: cs =>
      if c = '\x7d' then if allowClose then some ([], cs) else none
      else if c = '"' then
        match parseStrChars cs with
        | none => none
        | some k =>
          match skipWs k.2 with
          | [] => none
          | c2 :: r2 =>
            if c2 = ':' then
              match parseVal f r2 with
              | none => none
              | some v =>
                match skipWs v.2 with
                | [] => none
                | c3 :: r4 =>
                  if c3 = ',' then
                    match parseMembers f false r4 with
                    | none => none
                    | some ms => some ((String.mk k.1, v.1) :: ms.1, ms.2)
                  else if c3 = '\x7d' then some ([(String.mk k.1, v.1)], r4)
                  else none
            else none
      else none

/-- Parse array elements after the opening bracket. -/
def parseElems : Nat → Bool → List Char → Option (List JVal × List Char)
  | 0, _, _ => none
  | f + 1, allowClose, l =>
    match skipWs l with
    | [] => none
    | c :: cs =>
      if c = ']' then if allowClose then some ([], cs) else none
      else
        match parseVal f (c :: cs) with
        | none => none
        | some v =>
          match skipWs v.2 with
          | [] => none
          | c3 :: r4 =>
            if c3 = ',' then
              match parseElems f false r4 with
              | none => none
              | some es => some (v.1 :: es.1, es.2)
            else if c3 = ']' then some ([v.1], r4)
            else none

end

/-- Parse a complete JSON document: one value, optionally surrounded by
whitespace, with nothing after it (as `json.Unmarshal` requires). -/
def parseJson (s : String) : Option JVal :=
  match parseVal (s.length + 1) s.data with
  | some (v, rest) => if (skipWs rest).isEmpty then some v else none
  | none => none

/-- Lowercase hexadecimal digit, as Go's encoder uses. -/
def hexDigit (n : Nat) : Char :=
  if n < 10 then Char.ofNat (48 + n) else Char.ofNat (87 + n)

/-- Encode one character of a JSON string the way Go's `encoding/json`
encoder does (with its default HTML escaping of `<`, `>` and `&`). -/
def escChar (c : Char) : List Char :=
  if c = '"' then ['\\', '"']
  else if c = '\\' then ['\\', '\\']
  else if c = '\n' then ['\\', 'n']
  else if c = '\r' then ['\\', 'r']
  else if c = '\t' then ['\\', 't']
  else if c = '<' ∨ c = '>' ∨ c = '&' ∨ c.toNat < 0x20 then
    ['\\', 'u', '0', '0', hexDigit (c.toNat / 16), hexDigit (c.toNat % 16)]
  else if c.toNat = 0x2028 ∨ c.toNat = 0x2029 then
    ['\\', 'u', '2', '0', '2', hexDigit (c.toNat % 16)]
  else [c]

/-- Encode a character list as a JSON string body. -/
def escList : List Char → List Char
  | [] => []
  | c :: cs => escChar c ++ escList cs

/-- Quoted, escaped JSON string. -/
def quoteChars (s : String) : List Char :=
  '"' :: (escList s.data ++ ['"'])

mutual

/-- Render a JSON value compactly, as `json.Marshal` does. -/
def renderChars : JVal → List Char
  | .str s => quoteChars s
  | .bool b => if b then ['t', 'r', 'u', 'e'] else ['f', 'a', 'l', 's', 'e']
  | .num lx => lx.data
  | .null => ['n', 'u', 'l', 'l']
  | .obj ms => '\x7b' :: (renderMembersChars ms ++ ['\x7d'])
  | .arr es => '[' :: (renderElemsChars es ++ [']'])

/-- Render object members, comma separated, in order. -/
def renderMembersChars : List (String × JVal) → List Char
  | [] => []
  | [kv] => quoteChars kv.1 ++ (':' :: renderChars kv.2)
  | kv :: kv2 :: rest =>
    quoteChars kv.1 ++ (':' :: (renderChars kv.2 ++ (',' :: renderMembersChars (kv2 :: rest))))

/-- Render array elements, comma separated. -/
def renderElemsChars : List JVal → List Char
  | [] => []
  | [v] => renderChars v
  | v :: v2 :: rest => renderChars v ++ (',' :: renderElemsChars (v2 :: rest))

end

/-- Render a JSON value to a string. -/
def render (v : JVal) : String := String.mk (renderChars v)

/-- Characters that Go's encoder passes through unescaped. -/
def plainChar (c : Char) : Bool :=
  decide (¬ (c = '"' ∨ c = '\\' ∨ c = '<' ∨ c = '>' ∨ c = '&' ∨
    c.toNat < 0x20 ∨ c.toNat = 0x2028 ∨ c.toNat = 0x2029))

/-- A string whose encoding is itself, character for character. -/
def plainS (s : String) : Bool := s.data.all plainChar

/-! ## The Event struct (event.go)

The `Event` struct stores the network data; `subject` and `body` are the
unexported transient routing fields, invisible to `encoding/json`. -/

/-- Event stores the network data.  JSON tags, in declaration order:
`_uuid`, `_batch_id`, `_type`, `datacenter_region`, `datacenter_secret`,
`datacenter_token`, `vpc_id`, `network_aws_id,omitempty`, `name`, `range`,
`is_public`, `availability_zone`, `error_message,omitempty`. -/
structure Event where
  UUID : String
  BatchID : String
  ProviderType : String
  DatacenterRegion : String
  DatacenterAccessKey : String
  DatacenterAccessToken : String
  VPCID : String
  NetworkAWSID : String
  Name : String
  Subnet : String
  IsPublic : Bool
  AvailabilityZone : String
  ErrorMessage : String
  subject : String
  body : String
deriving Repr, DecidableEq

/-- New : Constructor.  All exported fields start at their zero values. -/
def New (subject body : String) : Event :=
  { UUID := "", BatchID := "", ProviderType := "", DatacenterRegion := "",
    DatacenterAccessKey := "", DatacenterAccessToken := "", VPCID := "",
    NetworkAWSID := "", Name := "", Subnet := "", IsPublic := false,
    AvailabilityZone := "", ErrorMessage := "", subject := subject,
    body := body }

/-- Message of `ErrDatacenterIDInvalid`. -/
def errDatacenterIDInvalid : String := "Datacenter VPC ID invalid"

/-- Message of `ErrDatacenterRegionInvalid`. -/
def errDatacenterRegionInvalid : String := "Datacenter Region invalid"

/-- Message of `ErrDatacenterCredentialsInvalid`. -/
def errDatacenterCredentialsInvalid : String := "Datacenter credentials invalid"

/-- Message of `ErrNetworkSubnetInvalid`. -/
def errNetworkSubnetInvalid : String := "Network subnet invalid"

/-- Message of `ErrNetworkAWSIDInvalid`. -/
def errNetworkAWSIDInvalid : String := "Network aws id invalid"

/-- The subject the worker subscribes to for creations. -/
def subjectCreate : String := "network.create.aws"

/-- The subject the worker subscribes to for deletions. -/
def subjectDelete : String := "network.delete.aws"

/-- Validate checks if all criteria are met; `none` means valid, `some msg`
is the message of the first violated criterion. -/
def Validate (ev : Event) : Option String :=
  if ev.VPCID = "" then some errDatacenterIDInvalid
  else if ev.DatacenterRegion = "" then some errDatacenterRegionInvalid
  else if ev.DatacenterAccessKey = "" ∨ ev.DatacenterAccessToken = "" then
    some errDatacenterCredentialsInvalid
  else if ev.subject = subjectDelete then
    if ev.NetworkAWSID = "" then some errNetworkAWSIDInvalid else none
  else
    if ev.Subnet = "" then some errNetworkSubnetInvalid else none

/-- Merge one decoded JSON member into a string field, with Go's unmarshal
semantics: `null` leaves the field unchanged, a non-string value is a type
error. -/
def strField (v : JVal) (set : String → Event) (ev : Event) : Option Event :=
  match v with
  | .str s => some (set s)
  | .null => some ev
  | _ => none

/-- Merge one decoded JSON member into a bool field. -/
def boolField (v : JVal) (set : Bool → Event) (ev : Event) : Option Event :=
  match v with
  | .bool b => some (set b)
  | .null => some ev
  | _ => none

/-- Merge one object member into the struct: known tags set their field,
unknown members are ignored, wrongly typed members fail. -/
def applyField (ev : Event) (kv : String × JVal) : Option Event :=
  if kv.1 = "_uuid" then strField kv.2 (fun s => { ev with UUID := s }) ev
  else if kv.1 = "_batch_id" then strField kv.2 (fun s => { ev with BatchID := s }) ev
  else if kv.1 = "_type" then strField kv.2 (fun s => { ev with ProviderType := s }) ev
  else if kv.1 = "datacenter_region" then
    strField kv.2 (fun s => { ev with DatacenterRegion := s }) ev
  else if kv.1 = "datacenter_secret" then
    strField kv.2 (fun s => { ev with DatacenterAccessKey := s }) ev
  else if kv.1 = "datacenter_token" then
    strField kv.2 (fun s => { ev with DatacenterAccessToken := s }) ev
  else if kv.1 = "vpc_id" then strField kv.2 (fun s => { ev with VPCID := s }) ev
  else if kv.1 = "network_aws_id" then
    strField kv.2 (fun s => { ev with NetworkAWSID := s }) ev
  else if kv.1 = "name" then strField kv.2 (fun s => { ev with Name := s }) ev
  else if kv.1 = "range" then strField kv.2 (fun s => { ev with Subnet := s }) ev
  else if kv.1 = "is_public" then
    boolField kv.2 (fun b => { ev with IsPublic := b }) ev
  else if kv.1 = "availability_zone" then
    strField kv.2 (fun s => { ev with AvailabilityZone := s }) ev
  else if kv.1 = "error_message" then
    strField kv.2 (fun s => { ev with ErrorMessage := s }) ev
  else some ev

/-- The `json.Unmarshal(body, &ev)` step of `Process`: the payload must be a
full JSON document whose top level is an object (or `null`, which Go accepts
as a no-op on a struct); members are merged left to right into `ev`. -/
def unmarshalEvent (body : String) (ev : Event) : Option Event :=
  match parseJson body with
  | some (.obj ms) => ms.foldlM applyField ev
  | some .null => some ev
  | _ => none

/-- The JSON members `json.Marshal` emits for an `Event`, in struct order,
with `omitempty` dropping empty `network_aws_id` and `error_message`. -/
def encodeEventFields (ev : Event) : List (String × JVal) :=
  [("_uuid", .str ev.UUID), ("_batch_id", .str ev.BatchID),
   ("_type", .str ev.ProviderType),
   ("datacenter_region", .str ev.DatacenterRegion),
   ("datacenter_secret", .str ev.DatacenterAccessKey),
   ("datacenter_token", .str ev.DatacenterAccessToken),
   ("vpc_id", .str ev.VPCID)]
  ++ (if ev.NetworkAWSID = "" then [] else [("network_aws_id", .str ev.NetworkAWSID)])
  ++ [("name", .str ev.Name), ("range", .str ev.Subnet),
      ("is_public", .bool ev.IsPublic),
      ("availability_zone", .str ev.AvailabilityZone)]
  ++ (if ev.ErrorMessage = "" then [] else [("error_message", .str ev.ErrorMessage)])

/-- Serialize an `Event` to its wire bytes.  `json.Marshal` cannot fail on
this struct (every field is a string or a bool), so this is total; the
`err != nil` branches after `json.Marshal` in `Error` and `Complete` are
dead code. -/
def marshalEvent (ev : Event) : String :=
  render (.obj (encodeEventFields ev))

/-! ## The cloud surface and the effect trace

Cloud calls are modelled against an explicit environment of per-call
responses; everything the handler does to the outside world (bus
publications, EC2 calls, sleeps) is recorded in an effect trace. -/

/-- Response of a successful `CreateSubnet` call (the fields the code
dereferences: `resp.Subnet.SubnetId` and `resp.Subnet.AvailabilityZone`). -/
structure SubnetResp where
  subnetId : String
  availabilityZone : String
deriving Repr, DecidableEq

/-- One EC2 call as issued by the code, with the arguments it passes. -/
inductive CloudOp where
  | createSubnet (vpc cidr az : String)
  | describeInternetGateways (vpcFilter : String)
  | createInternetGateway
  | attachInternetGateway (igw vpc : String)
  | describeRouteTables (subnetFilter : String)
  | createRouteTable (vpc : String)
  | associateRouteTable (rt subnet : String)
  | createRoute (rt destCidr igw : String)
  | modifySubnetAttribute (subnet : String) (mapPublicIpOnLaunch : Bool)
  | describeNetworkInterfaces (subnetFilter : String)
  | deleteSubnet (subnet : String)
deriving Repr, DecidableEq

/-- One observable effect of handling a message. -/
inductive Effect where
  | pub (topic data : String)
  | cloud (op : CloudOp)
  | sleep (seconds : Nat)
deriving Repr, DecidableEq

/-- The environment of cloud responses for one handled message.  Describe
calls on network interfaces are indexed by the poll count so the environment
can converge over time, as the real cloud does while interfaces detach. -/
structure Cloud where
  createSubnet : String → String → String → Except String SubnetResp
  describeIGWs : String → Except String (List String)
  createIGW : Except String String
  attachIGW : String → String → Except String Unit
  describeRTs : String → Except String (List String)
  createRT : String → Except String String
  associateRT : String → String → Except String Unit
  createRoute : String → String → String → Except String Unit
  modifySubnetAttr : String → Bool → Except String Unit
  describeNIs : Nat → String → Except String (List String)
  deleteSubnet : String → Except String Unit

/-- The destination block of the default route the code creates. -/
def cidrAll : String := "0.0.0.0/0"

/-- Split a character list at every dot, keeping empty segments, as Go's
`strings.Split(s, ".")` does. -/
def splitDotsAux : List Char → List Char → List String
  | [], acc => [String.mk acc.reverse]
  | c :: cs, acc =>
    if c = '.' then String.mk acc.reverse :: splitDotsAux cs []
    else splitDotsAux cs (c :: acc)

/-- The dot-segments of a subject: `strings.Split(subject, ".")`. -/
def subjectParts (s : String) : List String := splitDotsAux s.data []

/-- Find the internet gateway attached to a VPC: describe with an
`attachment.vpc-id` filter, then return the first one, or nothing. -/
def internetGatewayByVPCID (c : Cloud) (vpc : String) :
    List Effect × Except String (Option String) :=
  ([.cloud (.describeInternetGateways vpc)],
   match c.describeIGWs vpc with
   | .error e => .error e
   | .ok gws => .ok gws.head?)

/-- Find the route table associated with a subnet: describe with an
`association.subnet-id` filter, then return the first one, or nothing. -/
def routingTableBySubnetID (c : Cloud) (subnet : String) :
    List Effect × Except String (Option String) :=
  ([.cloud (.describeRouteTables subnet)],
   match c.describeRTs subnet with
   | .error e => .error e
   | .ok rts => .ok rts.head?)

/-- Reuse the gateway attached to the VPC if one exists, otherwise create a
new one and attach it. -/
def createInternetGateway (c : Cloud) (vpc : String) :
    List Effect × Except String String :=
  let q := internetGatewayByVPCID c vpc
  match q.2 with
  | .error e => (q.1, .error e)
  | .ok (some ig) => (q.1, .ok ig)
  | .ok none =>
    match c.createIGW with
    | .error e => (q.1 ++ [.cloud .createInternetGateway], .error e)
    | .ok ig =>
      match c.attachIGW ig vpc with
      | .error e =>
        (q.1 ++ [.cloud .createInternetGateway,
                 .cloud (.attachInternetGateway ig vpc)], .error e)
      | .ok _ =>
        (q.1 ++ [.cloud .createInternetGateway,
                 .cloud (.attachInternetGateway ig vpc)], .ok ig)

/-- Reuse the route table associated with the subnet if one exists, otherwise
create a new one and associate it. -/
def createRouteTable (c : Cloud) (vpc subnet : String) :
    List Effect × Except String String :=
  let q := routingTableBySubnetID c subnet
  match q.2 with
  | .error e => (q.1, .error e)
  | .ok (some rt) => (q.1, .ok rt)
  | .ok none =>
    match c.createRT vpc with
    | .error e => (q.1 ++ [.cloud (.createRouteTable vpc)], .error e)
    | .ok rt =>
      match c.associateRT rt subnet with
      | .error e =>
        (q.1 ++ [.cloud (.createRouteTable vpc),
                 .cloud (.associateRouteTable rt subnet)], .error e)
      | .ok _ =>
        (q.1 ++ [.cloud (.createRouteTable vpc),
                 .cloud (.associateRouteTable rt subnet)], .ok rt)

/-- Create the default route `0.0.0.0/0` in the route table, pointing at the
gateway. -/
def createGatewayRoutes (c : Cloud) (rt gw : String) :
    List Effect × Except String Unit :=
  ([.cloud (.createRoute rt cidrAll gw)],
   match c.createRoute rt cidrAll gw with
   | .error e => .error e
   | .ok _ => .ok ())

/-- Create : Creates a network (subnet) on aws.  On full success the assigned
subnet id and resolved availability zone are stored on the event. -/
def Create (c : Cloud) (ev : Event) : List Effect × Except String Event :=
  let t0 : List Effect := [.cloud (.createSubnet ev.VPCID ev.Subnet ev.AvailabilityZone)]
  match c.createSubnet ev.VPCID ev.Subnet ev.AvailabilityZone with
  | .error e => (t0, .error e)
  | .ok resp =>
    if ev.IsPublic then
      let g := createInternetGateway c ev.VPCID
      match g.2 with
      | .error e => (t0 ++ g.1, .error e)
      | .ok gw =>
        let r := createRouteTable c ev.VPCID resp.subnetId
        match r.2 with
        | .error e => (t0 ++ g.1 ++ r.1, .error e)
        | .ok rt =>
          let gr := createGatewayRoutes c rt gw
          match gr.2 with
          | .error e => (t0 ++ g.1 ++ r.1 ++ gr.1, .error e)
          | .ok _ =>
            let t4 : List Effect := [.cloud (.modifySubnetAttribute resp.subnetId true)]
            match c.modifySubnetAttr resp.subnetId true with
            | .error e => (t0 ++ g.1 ++ r.1 ++ gr.1 ++ t4, .error e)
            | .ok _ =>
              (t0 ++ g.1 ++ r.1 ++ gr.1 ++ t4,
               .ok { ev with NetworkAWSID := resp.subnetId,
                             AvailabilityZone := resp.availabilityZone })
    else
      (t0, .ok { ev with NetworkAWSID := resp.subnetId,
                         AvailabilityZone := resp.availabilityZone })

/-- Update : always fails; the operation is not supported. -/
def Update (ev : Event) : List Effect × Except String Unit :=
  ([], .error (ev.subject ++ " not supported"))

/-- Get : always fails; the operation is not supported. -/
def Get (ev : Event) : List Effect × Except String Unit :=
  ([], .error (ev.subject ++ " not supported"))

/-- Poll `DescribeNetworkInterfaces` (filter `subnet-id`) until none remain,
sleeping one second between polls.  The loop in the code is unbounded; here
`fuel` bounds how many polls the model unrolls and `none` means the loop is
still running after that many polls.  `i` counts the polls already made, so
the environment can answer differently over time. -/
def waitForInterfaceRemoval (c : Cloud) (networkID : String) :
    Nat → Nat → List Effect × Option (Except String Unit)
  | _, 0 => ([], none)
  | i, fuel + 1 =>
    match c.describeNIs i networkID with
    | .error e => ([.cloud (.describeNetworkInterfaces networkID)], some (.error e))
    | .ok [] => ([.cloud (.describeNetworkInterfaces networkID)], some (.ok ()))
    | .ok (_ :: _) =>
      let p := waitForInterfaceRemoval c networkID (i + 1) fuel
      (.cloud (.describeNetworkInterfaces networkID) :: .sleep 1 :: p.1, p.2)

/-- Delete : Deletes a network (subnet) on aws, after waiting for every
network interface in it to be removed.  `none` means the poll loop is still
running. -/
def Delete (c : Cloud) (ev : Event) (fuel : Nat) :
    List Effect × Option (Except String Unit) :=
  let w := waitForInterfaceRemoval c ev.NetworkAWSID 0 fuel
  match w.2 with
  | none => (w.1, none)
  | some (.error e) => (w.1, some (.error e))
  | some (.ok _) =>
    (w.1 ++ [.cloud (.deleteSubnet ev.NetworkAWSID)],
     some (match c.deleteSubnet ev.NetworkAWSID with
           | .error e => .error e
           | .ok _ => .ok ()))

/-- Suffix of the outcome topic for failures. -/
def errSuffix : String := ".error"

/-- Suffix of the outcome topic for completions. -/
def doneSuffix : String := ".done"

/-- Error : logs, stores the message in `error_message` and publishes the
serialized envelope to `<subject>.error`.  `json.Marshal` cannot fail on this
struct, so the `log.Panic` branch is unreachable. -/
def eventError (ev : Event) (msg : String) : List Effect :=
  [.pub (ev.subject ++ errSuffix) (marshalEvent { ev with ErrorMessage := msg })]

/-- Complete : publishes the serialized envelope to `<subject>.done`.  As in
`Error`, the marshal-failure branch is unreachable. -/
def eventComplete (ev : Event) : List Effect :=
  [.pub (ev.subject ++ doneSuffix) (marshalEvent ev)]

/-- Result of one `eventHandler` invocation: the handler returned with the
given effect trace, or it is still inside the delete poll loop, or the Go
code would panic (`parts[1]` when the subject has no second dot-segment). -/
inductive HResult where
  | finished (trace : List Effect)
  | polling (trace : List Effect)
  | panicked (trace : List Effect)
deriving Repr, DecidableEq

/-- eventHandler : builds the event from the message, decodes it (`Process`,
which republishes the raw bytes to `<subject>.error` on a decode failure),
validates it, dispatches on the second dot-segment of the subject, and
publishes the outcome. -/
def eventHandler (c : Cloud) (fuel : Nat) (subject body : String) : HResult :=
  let n := New subject body
  match unmarshalEvent body n with
  | none => .finished [.pub (subject ++ errSuffix) body]
  | some ev =>
    match Validate ev with
    | some msg => .finished (eventError ev msg)
    | none =>
      match (subjectParts subject)[1]? with
      | none => .panicked []
      | some act =>
        if act = "create" then
          let r := Create c ev
          match r.2 with
          | .error e => .finished (r.1 ++ eventError ev e)
          | .ok ev2 => .finished (r.1 ++ eventComplete ev2)
        else if act = "update" then
          let r := Update ev
          match r.2 with
          | .error e => .finished (r.1 ++ eventError ev e)
          | .ok _ => .finished (r.1 ++ eventComplete ev)
        else if act = "delete" then
          let r := Delete c ev fuel
          match r.2 with
          | none => .polling r.1
          | some (.error e) => .finished (r.1 ++ eventError ev e)
          | some (.ok _) => .finished (r.1 ++ eventComplete ev)
        else if act = "get" then
          let r := Get ev
          match r.2 with
          | .error e => .finished (r.1 ++ eventError ev e)
          | .ok _ => .finished (r.1 ++ eventComplete ev)
        else .finished (eventComplete ev)

/-- The cloud calls recorded in a trace, in order. -/
def cloudOps (t : List Effect) : List CloudOp :=
  t.filterMap (fun e => match e with | .cloud op => some op | _ => none)

/-- The publications recorded in a trace, in order. -/
def pubsOf (t : List Effect) : List (String × String) :=
  t.filterMap (fun e => match e with | .pub topic data => some (topic, data) | _ => none)

/-- Publications to one of the two outcome topics of a subject. -/
def isOutcomePub (subject : String) : Effect → Bool
  | .pub topic _ => topic == subject ++ doneSuffix || topic == subject ++ errSuffix
  | _ => false

/-- How many outcome publications a trace holds. -/
def outcomeCount (subject : String) (t : List Effect) : Nat :=
  (t.filter (isOutcomePub subject)).length

/-- The trace carried by a handler result. -/
def handlerTrace : HResult → List Effect
  | .finished t => t
  | .polling t => t
  | .panicked t => t

/-- Whether the handler result is a Go panic. -/
def isPanicked : HResult → Bool
  | .panicked _ => true
  | _ => false

/-- An effect that is not a publication. -/
def noPub : Effect → Bool
  | .pub _ _ => false
  | _ => true

/-- Whether the describe-gateways call found an existing gateway attached to
the VPC. -/
def igwFound (c : Cloud) (vpc : String) : Bool :=
  match c.describeIGWs vpc with
  | .ok (_ :: _) => true
  | _ => false

/-- Whether the describe-route-tables call found a route table already
associated with the subnet. -/
def rtbFound (c : Cloud) (subnet : String) : Bool :=
  match c.describeRTs subnet with
  | .ok (_ :: _) => true
  | _ => false

/-- Modelled from the claim: the cloud-call sequence a successful public
create must issue — create-subnet; describe-gateways by VPC; create+attach
gateway only if none found; describe-route-tables by the new subnet;
create+associate route table only if none found; create-route for `0.0.0.0/0`
to the gateway; modify-subnet-attribute to map public IPs on launch. -/
def specPublicCreateOps (gwWasFound rtWasFound : Bool)
    (vpc cidr az sid gw rt : String) : List CloudOp :=
  [.createSubnet vpc cidr az, .describeInternetGateways vpc]
  ++ (if gwWasFound then [] else [.createInternetGateway, .attachInternetGateway gw vpc])
  ++ [.describeRouteTables sid]
  ++ (if rtWasFound then [] else [.createRouteTable vpc, .associateRouteTable rt sid])
  ++ [.createRoute rt cidrAll gw, .modifySubnetAttribute sid true]

/-- Holds when the payload is the serialized envelope of an event carrying
the same cloud credential fields as `ev0`. -/
def credsSerialized (ev0 : Event) (data : String) : Prop :=
  ∃ e : Event, data = marshalEvent e ∧
    e.DatacenterRegion = ev0.DatacenterRegion ∧
    e.DatacenterAccessKey = ev0.DatacenterAccessKey ∧
    e.DatacenterAccessToken = ev0.DatacenterAccessToken

/-- Event whose serialized string fields need no JSON escaping, so its wire
bytes contain each field value verbatim. -/
def plainEv (ev : Event) : Bool :=
  plainS ev.UUID && plainS ev.BatchID && plainS ev.ProviderType &&
  plainS ev.DatacenterRegion && plainS ev.DatacenterAccessKey &&
  plainS ev.DatacenterAccessToken && plainS ev.VPCID &&
  plainS ev.NetworkAWSID && plainS ev.Name && plainS ev.Subnet &&
  plainS ev.AvailabilityZone && plainS ev.ErrorMessage

/-- JSON value of the flat shape the serializer emits for this struct: a
plain string or a boolean. -/
def flatVal : JVal → Bool
  | .str s => plainS s
  | .bool _ => true
  | _ => false

/-- Object members of the flat shape the serializer emits. -/
def flatMembers (fs : List (String × JVal)) : Bool :=
  fs.all (fun kv => plainS kv.1 && flatVal kv.2)

/-! ## Concrete fixtures used by the witness theorems -/

/-- A cloud environment where every call succeeds, no gateway or route table
exists yet, and the subnet holds two attached interfaces for the first two
polls, none afterwards. -/
def cloudOK : Cloud :=
  { createSubnet := fun _ _ _ => .ok ⟨"subnet-1", "az-1"⟩,
    describeIGWs := fun _ => .ok [],
    createIGW := .ok ("igw-1"),
    attachIGW := fun _ _ => .ok (),
    describeRTs := fun _ => .ok [],
    createRT := fun _ => .ok ("rtb-1"),
    associateRT := fun _ _ => .ok (),
    createRoute := fun _ _ _ => .ok (),
    modifySubnetAttr := fun _ _ => .ok (),
    describeNIs := fun n _ => if n < 2 then .ok ["eni-a", "eni-b"] else .ok [],
    deleteSubnet := fun _ => .ok () }

/-- A valid public create envelope. -/
def evPubW : Event :=
  { New ("network.create.aws") "" with
    DatacenterRegion := "r", DatacenterAccessKey := "k",
    DatacenterAccessToken := "t", VPCID := "v", Subnet := "10.0.0.0/16",
    IsPublic := true }

/-- A valid private create envelope. -/
def evPrivW : Event := { evPubW with IsPublic := false }

/-- A valid delete envelope. -/
def evDelW : Event :=
  { New ("network.delete.aws") "" with
    DatacenterRegion := "r", DatacenterAccessKey := "k",
    DatacenterAccessToken := "t", VPCID := "v", NetworkAWSID := "subnet-9" }

/-- A valid create payload in wire form. -/
def bodyCW : String :=
  "\x7b\"datacenter_region\":\"r\",\"datacenter_secret\":\"k\",\"datacenter_token\":\"t\",\"vpc_id\":\"v\",\"range\":\"10.0.0.0/16\"\x7d"

/-- A valid delete payload in wire form. -/
def bodyDW : String :=
  "\x7b\"datacenter_region\":\"r\",\"datacenter_secret\":\"k\",\"datacenter_token\":\"t\",\"vpc_id\":\"v\",\"network_aws_id\":\"subnet-9\"\x7d"

/-! ## Helper lemmas: decoding touches no transient routing field -/

theorem strField_out {v : JVal} {set : String → Event} {ev ev2 : Event}
    (h : strField v set ev = some ev2) : (∃ s, ev2 = set s) ∨ ev2 = ev := by
  cases v with
  | str s => simp [strField] at h; exact Or.inl ⟨s, h.symm⟩
  | null => simp [strField] at h; exact Or.inr h.symm
  | bool b => simp [strField] at h
  | num n => simp [strField] at h
  | obj ms => simp [strField] at h
  | arr es => simp [strField] at h

theorem boolField_out {v : JVal} {set : Bool → Event} {ev ev2 : Event}
    (h : boolField v set ev = some ev2) : (∃ b, ev2 = set b) ∨ ev2 = ev := by
  cases v with
  | bool b => simp [boolField] at h; exact Or.inl ⟨b, h.symm⟩
  | null => simp [boolField] at h; exact Or.inr h.symm
  | str s => simp [boolField] at h
  | num n => simp [boolField] at h
  | obj ms => simp [boolField] at h
  | arr es => simp [boolField] at h

theorem applyField_routing {ev : Event} {kv : String × JVal} {ev2 : Event}
    (h : applyField ev kv = some ev2) :
    ev2.subject = ev.subject ∧ ev2.body = ev.body := by
  rcases kv with ⟨k, v⟩
  dsimp only [applyField] at h
  by_cases h1 : k = "_uuid"
  · rw [if_pos h1] at h
    rcases strField_out h with ⟨s, rfl⟩ | rfl <;> exact ⟨rfl, rfl⟩
  rw [if_neg h1] at h
  by_cases h2 : k = "_batch_id"
  · rw [if_pos h2] at h
    rcases strField_out h with ⟨s, rfl⟩ | rfl <;> exact ⟨rfl, rfl⟩
  rw [if_neg h2] at h
  by_cases h3 : k = "_type"
  · rw [if_pos h3] at h
    rcases strField_out h with ⟨s, rfl⟩ | rfl <;> exact ⟨rfl, rfl⟩
  rw [if_neg h3] at h
  by_cases h4 : k = "datacenter_region"
  · rw [if_pos h4] at h
    rcases strField_out h with ⟨s, rfl⟩ | rfl <;> exact ⟨rfl, rfl⟩
  rw [if_neg h4] at h
  by_cases h5 : k = "datacenter_secret"
  · rw [if_pos h5] at h
    rcases strField_out h with ⟨s, rfl⟩ | rfl <;> exact ⟨rfl, rfl⟩
  rw [if_neg h5] at h
  by_cases h6 : k = "datacenter_token"
  · rw [if_pos h6] at h
    rcases strField_out h with ⟨s, rfl⟩ | rfl <;> exact ⟨rfl, rfl⟩
  rw [if_neg h6] at h
  by_cases h7 : k = "vpc_id"
  · rw [if_pos h7] at h
    rcases strField_out h with ⟨s, rfl⟩ | rfl <;> exact ⟨rfl, rfl⟩
  rw [if_neg h7] at h
  by_cases h8 : k = "network_aws_id"
  · rw [if_pos h8] at h
    rcases strField_out h with ⟨s, rfl⟩ | rfl <;> exact ⟨rfl, rfl⟩
  rw [if_neg h8] at h
  by_cases h9 : k = "name"
  · rw [if_pos h9] at h
    rcases strField_out h with ⟨s, rfl⟩ | rfl <;> exact ⟨rfl, rfl⟩
  rw [if_neg h9] at h
  by_cases h10 : k = "range"
  · rw [if_pos h10] at h
    rcases strField_out h with ⟨s, rfl⟩ | rfl <;> exact ⟨rfl, rfl⟩
  rw [if_neg h10] at h
  by_cases h11 : k = "is_public"
  · rw [if_pos h11] at h
    rcases boolField_out h with ⟨b, rfl⟩ | rfl <;> exact ⟨rfl, rfl⟩
  rw [if_neg h11] at h
  by_cases h12 : k = "availability_zone"
  · rw [if_pos h12] at h
    rcases strField_out h with ⟨s, rfl⟩ | rfl <;> exact ⟨rfl, rfl⟩
  rw [if_neg h12] at h
  by_cases h13 : k = "error_message"
  · rw [if_pos h13] at h
    rcases strField_out h with ⟨s, rfl⟩ | rfl <;> exact ⟨rfl, rfl⟩
  rw [if_neg h13] at h
  injection h with h14
  subst h14
  exact ⟨rfl, rfl⟩

theorem foldlM_routing :
    ∀ (ms : List (String × JVal)) (ev ev2 : Event),
      ms.foldlM applyField ev = some ev2 →
      ev2.subject = ev.subject ∧ ev2.body = ev.body := by
  intro ms
  induction ms with
  | nil =>
    intro ev ev2 h
    simp [List.foldlM] at h
    subst h
    exact ⟨rfl, rfl⟩
  | cons kv ms ih =>
    intro ev ev2 h
    rw [List.foldlM_cons] at h
    cases ha : applyField ev kv with
    | none => rw [ha] at h; simp at h
    | some ev1 =>
      rw [ha] at h
      simp at h
      obtain ⟨h1, h2⟩ := applyField_routing ha
      obtain ⟨h3, h4⟩ := ih ev1 ev2 h
      exact ⟨h3.trans h1, h4.trans h2⟩

theorem unmarshal_routing {body subject : String} {ev : Event}
    (h : unmarshalEvent body (New subject body) = some ev) :
    ev.subject = subject ∧ ev.body = body := by
  unfold unmarshalEvent at h
  cases hp : parseJson body with
  | none => rw [hp] at h; simp at h
  | some v =>
    rw [hp] at h
    cases v with
    | obj ms => exact foldlM_routing ms _ ev h
    | null => simp at h; subst h; exact ⟨rfl, rfl⟩
    | str s => simp at h
    | bool b => simp at h
    | num n => simp at h
    | arr es => simp at h

/-! ## Helper lemmas: cloud-handler traces publish nothing -/

theorem filter_outcome_nil {s : String} :
    ∀ {t : List Effect}, (∀ x ∈ t, noPub x = true) →
      t.filter (isOutcomePub s) = [] := by
  intro t h
  induction t with
  | nil => rfl
  | cons a t ih =>
    have ha := h a (by simp)
    have h2 : ∀ x ∈ t, noPub x = true := fun x hx => h x (by simp [hx])
    cases a with
    | pub topic d => simp [noPub] at ha
    | cloud op => simp [List.filter, isOutcomePub, ih h2]
    | sleep n => simp [List.filter, isOutcomePub, ih h2]

theorem cig_allNoPub (c : Cloud) (vpc : String) :
    ((createInternetGateway c vpc).1.all noPub) = true := by
  rcases hD : c.describeIGWs vpc with e | gws
  · simp [createInternetGateway, internetGatewayByVPCID, hD, noPub]
  · cases gws with
    | cons g rest => simp [createInternetGateway, internetGatewayByVPCID, hD, noPub]
    | nil =>
      rcases hC : c.createIGW with e | ig
      · simp [createInternetGateway, internetGatewayByVPCID, hD, hC, noPub]
      · rcases hA : c.attachIGW ig vpc with e | u <;>
          simp [createInternetGateway, internetGatewayByVPCID, hD, hC, hA, noPub]

theorem crt_allNoPub (c : Cloud) (vpc subnet : String) :
    ((createRouteTable c vpc subnet).1.all noPub) = true := by
  rcases hD : c.describeRTs subnet with e | rts
  · simp [createRouteTable, routingTableBySubnetID, hD, noPub]
  · cases rts with
    | cons r rest => simp [createRouteTable, routingTableBySubnetID, hD, noPub]
    | nil =>
      rcases hC : c.createRT vpc with e | rt
      · simp [createRouteTable, routingTableBySubnetID, hD, hC, noPub]
      · rcases hA : c.associateRT rt subnet with e | u <;>
          simp [createRouteTable, routingTableBySubnetID, hD, hC, hA, noPub]

theorem create_allNoPub (c : Cloud) (ev : Event) :
    (((Create c ev).1).all noPub) = true := by
  rcases hS : c.createSubnet ev.VPCID ev.Subnet ev.AvailabilityZone with e | resp
  · simp [Create, hS, noPub]
  · by_cases hp : ev.IsPublic
    · rcases hG : (createInternetGateway c ev.VPCID).2 with e | gw
      · simp [Create, hS, hp, hG, List.all_append, cig_allNoPub, noPub]
      · rcases hR : (createRouteTable c ev.VPCID resp.subnetId).2 with e | rt
        · simp [Create, hS, hp, hG, hR, List.all_append, cig_allNoPub, crt_allNoPub,
            noPub]
        · rcases hGR : c.createRoute rt cidrAll gw with e | u
          · simp [Create, hS, hp, hG, hR, createGatewayRoutes, hGR, List.all_append,
              cig_allNoPub, crt_allNoPub, noPub]
          · rcases hM : c.modifySubnetAttr resp.subnetId true with e | u <;>
              simp [Create, hS, hp, hG, hR, createGatewayRoutes, hGR, hM,
                List.all_append, cig_allNoPub, crt_allNoPub, noPub]
    · simp [Create, hS, hp, noPub]

theorem wait_allNoPub (c : Cloud) (s : String) :
    ∀ fuel i, (((waitForInterfaceRemoval c s i fuel).1).all noPub) = true := by
  intro fuel
  induction fuel with
  | zero => intro i; simp [waitForInterfaceRemoval]
  | succ f ih =>
    intro i
    rcases hD : c.describeNIs i s with e | l
    · simp [waitForInterfaceRemoval, hD, noPub]
    · cases l with
      | nil => simp [waitForInterfaceRemoval, hD, noPub]
      | cons a rest => simp [waitForInterfaceRemoval, hD, noPub, ih (i + 1)]

theorem delete_allNoPub (c : Cloud) (ev : Event) (fuel : Nat) :
    (((Delete c ev fuel).1).all noPub) = true := by
  rcases hW : (waitForInterfaceRemoval c ev.NetworkAWSID 0 fuel).2 with _ | r
  · simp [Delete, hW, wait_allNoPub]
  · cases r with
    | error e => simp [Delete, hW, wait_allNoPub]
    | ok u =>
      simp [Delete, hW, List.all_append, wait_allNoPub, noPub]

theorem create_noPub (c : Cloud) (ev : Event) :
    ∀ x ∈ (Create c ev).1, noPub x = true := by
  have h := create_allNoPub c ev
  rw [List.all_eq_true] at h
  exact fun x hx => h x hx

theorem delete_noPub (c : Cloud) (ev : Event) (fuel : Nat) :
    ∀ x ∈ (Delete c ev fuel).1, noPub x = true := by
  have h := delete_allNoPub c ev fuel
  rw [List.all_eq_true] at h
  exact fun x hx => h x hx

theorem wait_noPub (c : Cloud) (s : String) (fuel i : Nat) :
    ∀ x ∈ (waitForInterfaceRemoval c s i fuel).1, noPub x = true := by
  have h := wait_allNoPub c s fuel i
  rw [List.all_eq_true] at h
  exact fun x hx => h x hx

theorem outcome_single {subject topic : String} (data : String) {t : List Effect}
    (hN : ∀ x ∈ t, noPub x = true)
    (ht : topic = subject ++ doneSuffix ∨ topic = subject ++ errSuffix) :
    outcomeCount subject (t ++ [.pub topic data]) = 1 := by
  unfold outcomeCount
  rw [List.filter_append, filter_outcome_nil hN]
  rcases ht with rfl | rfl <;> simp [isOutcomePub, List.filter]

theorem outcome_eventError (subject : String) {ev : Event} (hs : ev.subject = subject)
    (msg : String) {t : List Effect} (hN : ∀ x ∈ t, noPub x = true) :
    outcomeCount subject (t ++ eventError ev msg) = 1 := by
  unfold eventError
  rw [hs]
  exact outcome_single _ hN (Or.inr rfl)

theorem outcome_eventComplete (subject : String) {ev : Event} (hs : ev.subject = subject)
    {t : List Effect} (hN : ∀ x ∈ t, noPub x = true) :
    outcomeCount subject (t ++ eventComplete ev) = 1 := by
  unfold eventComplete
  rw [hs]
  exact outcome_single _ hN (Or.inl rfl)

/-! ## Helper lemmas: the handler, path by path -/

theorem eh_decodeFail (c : Cloud) (fuel : Nat) (subject body : String)
    (hd : unmarshalEvent body (New subject body) = none) :
    eventHandler c fuel subject body = .finished [.pub (subject ++ errSuffix) body] := by
  simp [eventHandler, hd]

theorem eh_valFail (c : Cloud) (fuel : Nat) (subject body : String) {ev : Event}
    {msg : String} (hd : unmarshalEvent body (New subject body) = some ev)
    (hv : Validate ev = some msg) :
    eventHandler c fuel subject body = .finished (eventError ev msg) := by
  simp [eventHandler, hd, hv]

theorem eh_noSecond (c : Cloud) (fuel : Nat) (subject body : String) {ev : Event}
    (hd : unmarshalEvent body (New subject body) = some ev)
    (hv : Validate ev = none) (hact : (subjectParts subject)[1]? = none) :
    eventHandler c fuel subject body = .panicked [] := by
  simp [eventHandler, hd, hv, hact]

theorem eh_create_err (c : Cloud) (fuel : Nat) (subject body : String) {ev : Event}
    {tr : List Effect} {e : String}
    (hd : unmarshalEvent body (New subject body) = some ev)
    (hv : Validate ev = none)
    (hact : (subjectParts subject)[1]? = some ("create"))
    (hC : Create c ev = (tr, .error e)) :
    eventHandler c fuel subject body = .finished (tr ++ eventError ev e) := by
  simp [eventHandler, hd, hv, hact, hC]

theorem eh_create_ok (c : Cloud) (fuel : Nat) (subject body : String) {ev ev2 : Event}
    {tr : List Effect}
    (hd : unmarshalEvent body (New subject body) = some ev)
    (hv : Validate ev = none)
    (hact : (subjectParts subject)[1]? = some ("create"))
    (hC : Create c ev = (tr, .ok ev2)) :
    eventHandler c fuel subject body = .finished (tr ++ eventComplete ev2) := by
  simp [eventHandler, hd, hv, hact, hC]

theorem eh_update (c : Cloud) (fuel : Nat) (subject body : String) {ev : Event}
    (hd : unmarshalEvent body (New subject body) = some ev)
    (hv : Validate ev = none)
    (hact : (subjectParts subject)[1]? = some ("update")) :
    eventHandler c fuel subject body =
      .finished (eventError ev (ev.subject ++ " not supported")) := by
  simp [eventHandler, hd, hv, hact, Update]

theorem eh_get (c : Cloud) (fuel : Nat) (subject body : String) {ev : Event}
    (hd : unmarshalEvent body (New subject body) = some ev)
    (hv : Validate ev = none)
    (hact : (subjectParts subject)[1]? = some ("get")) :
    eventHandler c fuel subject body =
      .finished (eventError ev (ev.subject ++ " not supported")) := by
  simp [eventHandler, hd, hv, hact, Get]

theorem eh_delete_poll (c : Cloud) (fuel : Nat) (subject body : String) {ev : Event}
    {tr : List Effect}
    (hd : unmarshalEvent body (New subject body) = some ev)
    (hv : Validate ev = none)
    (hact : (subjectParts subject)[1]? = some ("delete"))
    (hD : Delete c ev fuel = (tr, none)) :
    eventHandler c fuel subject body = .polling tr := by
  simp [eventHandler, hd, hv, hact, hD]

theorem eh_delete_err (c : Cloud) (fuel : Nat) (subject body : String) {ev : Event}
    {tr : List Effect} {e : String}
    (hd : unmarshalEvent body (New subject body) = some ev)
    (hv : Validate ev = none)
    (hact : (subjectParts subject)[1]? = some ("delete"))
    (hD : Delete c ev fuel = (tr, some (.error e))) :
    eventHandler c fuel subject body = .finished (tr ++ eventError ev e) := by
  simp [eventHandler, hd, hv, hact, hD]

theorem eh_delete_ok (c : Cloud) (fuel : Nat) (subject body : String) {ev : Event}
    {tr : List Effect}
    (hd : unmarshalEvent body (New subject body) = some ev)
    (hv : Validate ev = none)
    (hact : (subjectParts subject)[1]? = some ("delete"))
    (hD : Delete c ev fuel = (tr, some (.ok ()))) :
    eventHandler c fuel subject body = .finished (tr ++ eventComplete ev) := by
  simp [eventHandler, hd, hv, hact, hD]

theorem eh_unknown (c : Cloud) (fuel : Nat) (subject body : String) {ev : Event}
    {act : String}
    (hd : unmarshalEvent body (New subject body) = some ev)
    (hv : Validate ev = none)
    (hact : (subjectParts subject)[1]? = some act)
    (h1 : act ≠ "create") (h2 : act ≠ "update") (h3 : act ≠ "delete")
    (h4 : act ≠ "get") :
    eventHandler c fuel subject body = .finished (eventComplete ev) := by
  simp [eventHandler, hd, hv, hact, h1, h2, h3, h4]

/-- On a fully successful `Create`, the subnet-creation call succeeded and
the returned event is the input with the assigned subnet id and resolved
availability zone stored. -/
theorem Create_ok_out {c : Cloud} {ev : Event} {tr : List Effect} {ev2 : Event}
    (h : Create c ev = (tr, .ok ev2)) :
    ∃ resp, c.createSubnet ev.VPCID ev.Subnet ev.AvailabilityZone = .ok resp ∧
      ev2 = { ev with NetworkAWSID := resp.subnetId,
                      AvailabilityZone := resp.availabilityZone } := by
  rcases hS : c.createSubnet ev.VPCID ev.Subnet ev.AvailabilityZone with e | resp
  · simp [Create, hS] at h
  · by_cases hp : ev.IsPublic
    · rcases hG : (createInternetGateway c ev.VPCID).2 with e | gw
      · simp [Create, hS, hp, hG] at h
      · rcases hR : (createRouteTable c ev.VPCID resp.subnetId).2 with e | rt
        · simp [Create, hS, hp, hG, hR] at h
        · rcases hGR : c.createRoute rt cidrAll gw with e | u
          · simp [Create, hS, hp, hG, hR, createGatewayRoutes, hGR] at h
          · rcases hM : c.modifySubnetAttr resp.subnetId true with e | u
            · simp [Create, hS, hp, hG, hR, createGatewayRoutes, hGR, hM] at h
            · simp [Create, hS, hp, hG, hR, createGatewayRoutes, hGR, hM] at h
              refine ⟨resp, rfl, ?_⟩
              rw [hp]
              exact h.2.symm
    · have hpf : ev.IsPublic = false := by simpa using hp
      simp [Create, hS, hpf] at h
      refine ⟨resp, rfl, ?_⟩
      rw [hpf]
      exact h.2.symm

/-! ## Claim C1 -/

/-- Claim C1: every finished handler run publishes exactly once to an outcome
topic — either `<subject>.done` or `<subject>.error`, never both and never
more than once — on every path: decode failure, validation failure, handler
failure and success.  (Serializing the envelope in the done/error step cannot
fail, since `json.Marshal` is total on a struct of strings and bools, so the
envelope-serialization-failure path does not occur.) -/
theorem C1_exactly_one_outcome (c : Cloud) (fuel : Nat) (subject body : String)
    (t : List Effect) (h : eventHandler c fuel subject body = .finished t) :
    outcomeCount subject t = 1 := by
  have h0 : ∀ x ∈ ([] : List Effect), noPub x = true := by simp
  cases hd : unmarshalEvent body (New subject body) with
  | none =>
    rw [eh_decodeFail c fuel subject body hd] at h
    injection h with h
    subst h
    simp [outcomeCount, isOutcomePub, List.filter]
  | some ev =>
    obtain ⟨hsubj, hbody⟩ := unmarshal_routing hd
    cases hv : Validate ev with
    | some msg =>
      rw [eh_valFail c fuel subject body hd hv] at h
      injection h with h
      subst h
      simpa using outcome_eventError subject hsubj msg h0
    | none =>
      cases hact : (subjectParts subject)[1]? with
      | none =>
        rw [eh_noSecond c fuel subject body hd hv hact] at h
        simp at h
      | some act =>
        by_cases h1 : act = "create"
        · subst h1
          rcases hC : Create c ev with ⟨tr, r⟩
          have htr : ∀ x ∈ tr, noPub x = true := by
            intro x hx
            apply create_noPub c ev
            rw [hC]
            exact hx
          cases r with
          | error e =>
            rw [eh_create_err c fuel subject body hd hv hact hC] at h
            injection h with h
            subst h
            exact outcome_eventError subject hsubj e htr
          | ok ev2 =>
            obtain ⟨resp, hcs, he⟩ := Create_ok_out hC
            rw [eh_create_ok c fuel subject body hd hv hact hC] at h
            injection h with h
            subst h
            have hs2 : ev2.subject = subject := by
              rw [he]
              exact hsubj
            exact outcome_eventComplete subject hs2 htr
        · by_cases h2 : act = "update"
          · subst h2
            rw [eh_update c fuel subject body hd hv hact] at h
            injection h with h
            subst h
            simpa using outcome_eventError subject hsubj _ h0
          · by_cases h3 : act = "delete"
            · subst h3
              rcases hD : Delete c ev fuel with ⟨tr, r⟩
              have htr : ∀ x ∈ tr, noPub x = true := by
                intro x hx
                apply delete_noPub c ev fuel
                rw [hD]
                exact hx
              cases r with
              | none =>
                rw [eh_delete_poll c fuel subject body hd hv hact hD] at h
                simp at h
              | some r2 =>
                cases r2 with
                | error e =>
                  rw [eh_delete_err c fuel subject body hd hv hact hD] at h
                  injection h with h
                  subst h
                  exact outcome_eventError subject hsubj e htr
                | ok u =>
                  cases u
                  rw [eh_delete_ok c fuel subject body hd hv hact hD] at h
                  injection h with h
                  subst h
                  exact outcome_eventComplete subject hsubj htr
            · by_cases h4 : act = "get"
              · subst h4
                rw [eh_get c fuel subject body hd hv hact] at h
                injection h with h
                subst h
                simpa using outcome_eventError subject hsubj _ h0
              · rw [eh_unknown c fuel subject body hd hv hact h1 h2 h3 h4] at h
                injection h with h
                subst h
                simpa using outcome_eventComplete subject hsubj h0

/-- Claim C1 witness: a concrete successful create publishes exactly one
outcome message. -/
theorem C1_witness :
    outcomeCount ("network.create.aws")
      (handlerTrace (eventHandler cloudOK 5 ("network.create.aws") bodyCW)) = 1 :=
  C1_exactly_one_outcome cloudOK 5 ("network.create.aws") bodyCW
    (handlerTrace (eventHandler cloudOK 5 ("network.create.aws") bodyCW)) (by rfl)

/-! ## Claims C3 and C5: the create sequences -/

theorem cig_trace_found {c : Cloud} {vpc g : String} {gs : List String}
    (hD : c.describeIGWs vpc = .ok (g :: gs)) :
    createInternetGateway c vpc =
      ([.cloud (.describeInternetGateways vpc)], .ok g) := by
  simp [createInternetGateway, internetGatewayByVPCID, hD]

theorem cig_trace_new {c : Cloud} {vpc ig : String}
    (hD : c.describeIGWs vpc = .ok []) (hC : c.createIGW = .ok ig)
    (hA : c.attachIGW ig vpc = .ok ()) :
    createInternetGateway c vpc =
      ([.cloud (.describeInternetGateways vpc), .cloud .createInternetGateway,
        .cloud (.attachInternetGateway ig vpc)], .ok ig) := by
  simp [createInternetGateway, internetGatewayByVPCID, hD, hC, hA]

theorem crt_trace_found (c : Cloud) (vpc : String) {subnet r : String}
    {rs : List String} (hD : c.describeRTs subnet = .ok (r :: rs)) :
    createRouteTable c vpc subnet =
      ([.cloud (.describeRouteTables subnet)], .ok r) := by
  simp [createRouteTable, routingTableBySubnetID, hD]

theorem crt_trace_new (c : Cloud) (vpc : String) {subnet rt : String}
    (hD : c.describeRTs subnet = .ok []) (hC : c.createRT vpc = .ok rt)
    (hA : c.associateRT rt subnet = .ok ()) :
    createRouteTable c vpc subnet =
      ([.cloud (.describeRouteTables subnet), .cloud (.createRouteTable vpc),
        .cloud (.associateRouteTable rt subnet)], .ok rt) := by
  simp [createRouteTable, routingTableBySubnetID, hD, hC, hA]

/-- Claim C3: a successful create of a public-reachable subnet issues the
cloud calls in exactly the claimed order — create-subnet;
describe-internet-gateways filtered by the VPC; create-gateway and
attach-gateway only when that describe found none; describe-route-tables
filtered by the new subnet; create-route-table and associate-route-table only
when that describe found none; create-route for `0.0.0.0/0` to the gateway;
modify-subnet-attribute mapping public IPs on launch. -/
theorem C3_public_create_sequence (c : Cloud) (ev : Event) (tr : List Effect)
    (ev2 : Event) (resp : SubnetResp) (gw rt : String)
    (hpub : ev.IsPublic = true)
    (hS : c.createSubnet ev.VPCID ev.Subnet ev.AvailabilityZone = .ok resp)
    (hgw : (createInternetGateway c ev.VPCID).2 = .ok gw)
    (hrt : (createRouteTable c ev.VPCID resp.subnetId).2 = .ok rt)
    (hrun : Create c ev = (tr, .ok ev2)) :
    cloudOps tr =
      specPublicCreateOps (igwFound c ev.VPCID) (rtbFound c resp.subnetId)
        ev.VPCID ev.Subnet ev.AvailabilityZone resp.subnetId gw rt := by
  rcases hGR : c.createRoute rt cidrAll gw with e | u
  · exfalso
    simp [Create, hS, hpub, hgw, hrt, createGatewayRoutes, hGR] at hrun
  cases u
  rcases hM : c.modifySubnetAttr resp.subnetId true with e | u2
  · exfalso
    simp [Create, hS, hpub, hgw, hrt, createGatewayRoutes, hGR, hM] at hrun
  cases u2
  have htr : tr =
      [.cloud (.createSubnet ev.VPCID ev.Subnet ev.AvailabilityZone)]
      ++ (createInternetGateway c ev.VPCID).1
      ++ (createRouteTable c ev.VPCID resp.subnetId).1
      ++ [.cloud (.createRoute rt cidrAll gw)]
      ++ [.cloud (.modifySubnetAttribute resp.subnetId true)] := by
    simp [Create, hS, hpub, hgw, hrt, createGatewayRoutes, hGR, hM] at hrun
    simp [← hrun.1]
  subst htr
  rcases hD : c.describeIGWs ev.VPCID with e | gws
  · exfalso
    simp [createInternetGateway, internetGatewayByVPCID, hD] at hgw
  · cases gws with
    | cons g gs =>
      have hcig := cig_trace_found hD
      have hgeq : g = gw := by
        rw [hcig] at hgw
        simpa using hgw
      subst hgeq
      rcases hD2 : c.describeRTs resp.subnetId with e | rts
      · exfalso
        simp [createRouteTable, routingTableBySubnetID, hD2] at hrt
      · cases rts with
        | cons r rs =>
          have hcrt := crt_trace_found c ev.VPCID hD2
          have hreq : r = rt := by
            rw [hcrt] at hrt
            simpa using hrt
          subst hreq
          simp [hcig, hcrt, cloudOps, specPublicCreateOps, igwFound, rtbFound,
            hD, hD2]
        | nil =>
          rcases hC2 : c.createRT ev.VPCID with e | rt2
          · exfalso
            simp [createRouteTable, routingTableBySubnetID, hD2, hC2] at hrt
          · rcases hA2 : c.associateRT rt2 resp.subnetId with e | u3
            · exfalso
              simp [createRouteTable, routingTableBySubnetID, hD2, hC2, hA2] at hrt
            · cases u3
              have hcrt := crt_trace_new c ev.VPCID hD2 hC2 hA2
              have hreq : rt2 = rt := by
                rw [hcrt] at hrt
                simpa using hrt
              subst hreq
              simp [hcig, hcrt, cloudOps, specPublicCreateOps, igwFound,
                rtbFound, hD, hD2]
    | nil =>
      rcases hC : c.createIGW with e | ig
      · exfalso
        simp [createInternetGateway, internetGatewayByVPCID, hD, hC] at hgw
      · rcases hA : c.attachIGW ig ev.VPCID with e | u3
        · exfalso
          simp [createInternetGateway, internetGatewayByVPCID, hD, hC, hA] at hgw
        · cases u3
          have hcig := cig_trace_new hD hC hA
          have hgeq : ig = gw := by
            rw [hcig] at hgw
            simpa using hgw
          subst hgeq
          rcases hD2 : c.describeRTs resp.subnetId with e | rts
          · exfalso
            simp [createRouteTable, routingTableBySubnetID, hD2] at hrt
          · cases rts with
            | cons r rs =>
              have hcrt := crt_trace_found c ev.VPCID hD2
              have hreq : r = rt := by
                rw [hcrt] at hrt
                simpa using hrt
              subst hreq
              simp [hcig, hcrt, cloudOps, specPublicCreateOps, igwFound,
                rtbFound, hD, hD2]
            | nil =>
              rcases hC2 : c.createRT ev.VPCID with e | rt2
              · exfalso
                simp [createRouteTable, routingTableBySubnetID, hD2, hC2] at hrt
              · rcases hA2 : c.associateRT rt2 resp.subnetId with e | u4
                · exfalso
                  simp [createRouteTable, routingTableBySubnetID, hD2, hC2,
                    hA2] at hrt
                · cases u4
                  have hcrt := crt_trace_new c ev.VPCID hD2 hC2 hA2
                  have hreq : rt2 = rt := by
                    rw [hcrt] at hrt
                    simpa using hrt
                  subst hreq
                  simp [hcig, hcrt, cloudOps, specPublicCreateOps, igwFound,
                    rtbFound, hD, hD2]

/-- Claim C3 witness: against a cloud with no existing gateway or route
table, a successful public create issues the full nine-call sequence. -/
theorem C3_witness :
    cloudOps (Create cloudOK evPubW).1 =
      specPublicCreateOps (igwFound cloudOK evPubW.VPCID)
        (rtbFound cloudOK ("subnet-1")) evPubW.VPCID evPubW.Subnet
        evPubW.AvailabilityZone ("subnet-1") ("igw-1") ("rtb-1") :=
  C3_public_create_sequence cloudOK evPubW (Create cloudOK evPubW).1
    { evPubW with NetworkAWSID := "subnet-1", AvailabilityZone := "az-1" }
    ⟨"subnet-1", "az-1"⟩ ("igw-1") ("rtb-1") rfl rfl rfl rfl rfl

/-- Claim C5: a successful create of a non-public subnet issues exactly one
cloud call — create-subnet — and stores the assigned subnet identifier and
the resolved availability zone in the envelope's result fields. -/
theorem C5_private_create (c : Cloud) (ev : Event) (tr : List Effect)
    (ev2 : Event) (resp : SubnetResp)
    (hpriv : ev.IsPublic = false)
    (hS : c.createSubnet ev.VPCID ev.Subnet ev.AvailabilityZone = .ok resp)
    (hrun : Create c ev = (tr, .ok ev2)) :
    tr = [.cloud (.createSubnet ev.VPCID ev.Subnet ev.AvailabilityZone)] ∧
    cloudOps tr = [.createSubnet ev.VPCID ev.Subnet ev.AvailabilityZone] ∧
    ev2 = { ev with NetworkAWSID := resp.subnetId,
                    AvailabilityZone := resp.availabilityZone } := by
  simp [Create, hS, hpriv] at hrun
  refine ⟨hrun.1.symm, ?_, ?_⟩
  · rw [← hrun.1]
    simp [cloudOps]
  · rw [hpriv]
    exact hrun.2.symm

/-- Claim C5 witness: a concrete private create issues only create-subnet and
stores the assigned identifiers. -/
theorem C5_witness :
    (Create cloudOK evPrivW).1 =
      [.cloud (.createSubnet evPrivW.VPCID evPrivW.Subnet
        evPrivW.AvailabilityZone)] ∧
    cloudOps (Create cloudOK evPrivW).1 =
      [.createSubnet evPrivW.VPCID evPrivW.Subnet evPrivW.AvailabilityZone] ∧
    ({ evPrivW with NetworkAWSID := "subnet-1", AvailabilityZone := "az-1" }
      : Event) =
      { evPrivW with NetworkAWSID := "subnet-1", AvailabilityZone := "az-1" } :=
  C5_private_create cloudOK evPrivW (Create cloudOK evPrivW).1
    { evPrivW with NetworkAWSID := "subnet-1", AvailabilityZone := "az-1" }
    ⟨"subnet-1", "az-1"⟩ rfl rfl rfl

/-! ## Claim C4: delete waits for interface removal -/

theorem wait_trace_shape (c : Cloud) (s : String) :
    ∀ (fuel i : Nat), ∀ x ∈ (waitForInterfaceRemoval c s i fuel).1,
      x = .cloud (.describeNetworkInterfaces s) ∨ x = .sleep 1 := by
  intro fuel
  induction fuel with
  | zero => intro i x hx; simp [waitForInterfaceRemoval] at hx
  | succ f ih =>
    intro i x hx
    rcases hD : c.describeNIs i s with e | l
    · simp [waitForInterfaceRemoval, hD] at hx
      exact Or.inl hx
    · cases l with
      | nil =>
        simp [waitForInterfaceRemoval, hD] at hx
        exact Or.inl hx
      | cons a rest =>
        simp [waitForInterfaceRemoval, hD] at hx
        rcases hx with rfl | rfl | hx
        · exact Or.inl rfl
        · exact Or.inr rfl
        · exact ih (i + 1) x hx

theorem wait_ok_iff (c : Cloud) (s : String) :
    ∀ (fuel i : Nat),
      ((waitForInterfaceRemoval c s i fuel).2 = some (.ok ())) ↔
      (∃ n, n < fuel ∧ c.describeNIs (i + n) s = .ok [] ∧
        ∀ k, k < n → ∃ x xs, c.describeNIs (i + k) s = .ok (x :: xs)) := by
  intro fuel
  induction fuel with
  | zero =>
    intro i
    simp [waitForInterfaceRemoval]
  | succ f ih =>
    intro i
    rcases hD : c.describeNIs i s with e | l
    · constructor
      · intro h
        simp [waitForInterfaceRemoval, hD] at h
      · rintro ⟨n, hn, hok, hbef⟩
        exfalso
        cases n with
        | zero =>
          rw [Nat.add_zero, hD] at hok
          exact Except.noConfusion hok
        | succ m =>
          obtain ⟨x, xs, hx⟩ := hbef 0 (Nat.succ_pos m)
          rw [Nat.add_zero, hD] at hx
          exact Except.noConfusion hx
    · cases l with
      | nil =>
        constructor
        · intro _
          exact ⟨0, Nat.succ_pos f, by simpa using hD,
            fun k hk => absurd hk (Nat.not_lt_zero k)⟩
        · intro _
          simp [waitForInterfaceRemoval, hD]
      | cons a rest =>
        have hrec := ih (i + 1)
        constructor
        · intro h
          have h2 : (waitForInterfaceRemoval c s (i + 1) f).2 = some (.ok ()) := by
            simpa [waitForInterfaceRemoval, hD] using h
          obtain ⟨n, hn, hok, hbef⟩ := hrec.mp h2
          refine ⟨n + 1, by omega, ?_, ?_⟩
          · have e1 : i + (n + 1) = i + 1 + n := by omega
            rw [e1]
            exact hok
          · intro k hk
            cases k with
            | zero => exact ⟨a, rest, by simpa using hD⟩
            | succ m =>
              obtain ⟨x, xs, hx⟩ := hbef m (by omega)
              have e1 : i + (m + 1) = i + 1 + m := by omega
              rw [e1]
              exact ⟨x, xs, hx⟩
        · rintro ⟨n, hn, hok, hbef⟩
          cases n with
          | zero =>
            exfalso
            rw [Nat.add_zero, hD] at hok
            simp at hok
          | succ m =>
            have h2 : (waitForInterfaceRemoval c s (i + 1) f).2 = some (.ok ()) := by
              apply hrec.mpr
              refine ⟨m, by omega, ?_, ?_⟩
              · have e1 : i + 1 + m = i + (m + 1) := by omega
                rw [e1]
                exact hok
              · intro k hk
                obtain ⟨x, xs, hx⟩ := hbef (k + 1) (by omega)
                have e1 : i + 1 + k = i + (k + 1) := by omega
                rw [e1]
                exact ⟨x, xs, hx⟩
            simp [waitForInterfaceRemoval, hD, h2]

/-- Claim C4: a validated delete repeatedly queries the network interfaces
attached to the subnet, proceeding only once a query returns none (the wait
trace holds only describe calls and one-second sleeps, never a delete);
delete-subnet is then called exactly once, appended after the wait; if the
wait never observes an empty result no delete happens; the wait succeeds
exactly when some poll returns empty with every earlier poll non-empty; and
a query failure aborts the handler with that error as the outcome (a delete
failure likewise becomes the outcome). -/
theorem C4_delete_waits (c : Cloud) (ev : Event) (fuel : Nat) :
    (∀ x ∈ (waitForInterfaceRemoval c ev.NetworkAWSID 0 fuel).1,
      x = .cloud (.describeNetworkInterfaces ev.NetworkAWSID) ∨ x = .sleep 1) ∧
    ((waitForInterfaceRemoval c ev.NetworkAWSID 0 fuel).2 = some (.ok ()) →
      (Delete c ev fuel).1 =
        (waitForInterfaceRemoval c ev.NetworkAWSID 0 fuel).1 ++
          [.cloud (.deleteSubnet ev.NetworkAWSID)] ∧
      (Delete c ev fuel).2 =
        some (match c.deleteSubnet ev.NetworkAWSID with
              | .error e => .error e
              | .ok _ => .ok ())) ∧
    ((waitForInterfaceRemoval c ev.NetworkAWSID 0 fuel).2 ≠ some (.ok ()) →
      (Delete c ev fuel).1 =
        (waitForInterfaceRemoval c ev.NetworkAWSID 0 fuel).1) ∧
    (((waitForInterfaceRemoval c ev.NetworkAWSID 0 fuel).2 = some (.ok ())) ↔
      ∃ n, n < fuel ∧ c.describeNIs n ev.NetworkAWSID = .ok [] ∧
        ∀ k, k < n → ∃ x xs, c.describeNIs k ev.NetworkAWSID = .ok (x :: xs)) ∧
    (∀ e, (waitForInterfaceRemoval c ev.NetworkAWSID 0 fuel).2 =
        some (.error e) →
      (Delete c ev fuel).2 = some (.error e)) := by
  refine ⟨wait_trace_shape c ev.NetworkAWSID fuel 0, ?_, ?_, ?_, ?_⟩
  · intro hok
    constructor
    · simp [Delete, hok]
    · simp [Delete, hok]
  · intro hne
    rcases hW : (waitForInterfaceRemoval c ev.NetworkAWSID 0 fuel).2 with _ | r
    · simp [Delete, hW]
    · cases r with
      | error e => simp [Delete, hW]
      | ok u =>
        cases u
        exact absurd hW hne
  · have h := wait_ok_iff c ev.NetworkAWSID fuel 0
    simpa using h
  · intro e hW
    simp [Delete, hW]

/-- Claim C4 witness: against a subnet reporting two attached interfaces for
the first two polls and none afterwards, the delete trace is the wait trace
followed by exactly one delete-subnet call. -/
theorem C4_witness :
    (Delete cloudOK evDelW 5).1 =
      (waitForInterfaceRemoval cloudOK evDelW.NetworkAWSID 0 5).1 ++
        [.cloud (.deleteSubnet evDelW.NetworkAWSID)] :=
  ((C4_delete_waits cloudOK evDelW 5).2.1 (by rfl)).1

/-! ## Claim C10: credentials are echoed on every outcome publication -/

theorem pub_in_eventError {ev : Event} {msg topic data : String}
    (h : Effect.pub topic data ∈ eventError ev msg) :
    data = marshalEvent { ev with ErrorMessage := msg } := by
  simp [eventError] at h
  exact h.2

theorem pub_in_eventComplete {ev : Event} {topic data : String}
    (h : Effect.pub topic data ∈ eventComplete ev) :
    data = marshalEvent ev := by
  simp [eventComplete] at h
  exact h.2

/-- Claim C10: whenever the inbound payload decodes, every publication the
handler makes — done or error alike — carries a serialized envelope whose
`datacenter_region`, `datacenter_secret` and `datacenter_token` values are
those of the decoded request, and the serializer emits those three members
unconditionally (no omit-when-empty). -/
theorem C10_credentials_echoed (c : Cloud) (fuel : Nat) (subject body : String)
    (ev0 : Event) (t : List Effect)
    (hd : unmarshalEvent body (New subject body) = some ev0)
    (hres : eventHandler c fuel subject body = .finished t ∨
            eventHandler c fuel subject body = .polling t) :
    (∀ topic data, Effect.pub topic data ∈ t → credsSerialized ev0 data) ∧
    (∀ e : Event,
      ("datacenter_region", JVal.str e.DatacenterRegion) ∈ encodeEventFields e ∧
      ("datacenter_secret", JVal.str e.DatacenterAccessKey) ∈ encodeEventFields e ∧
      ("datacenter_token", JVal.str e.DatacenterAccessToken) ∈ encodeEventFields e) := by
  refine ⟨?_, ?_⟩
  · intro topic data hmem
    cases hv : Validate ev0 with
    | some msg =>
      have hp := eh_valFail c fuel subject body hd hv
      rcases hres with hres | hres <;> rw [hp] at hres
      · injection hres with hres
        subst hres
        exact ⟨{ ev0 with ErrorMessage := msg }, pub_in_eventError hmem,
          rfl, rfl, rfl⟩
      · simp at hres
    | none =>
      cases hact : (subjectParts subject)[1]? with
      | none =>
        have hp := eh_noSecond c fuel subject body hd hv hact
        rcases hres with hres | hres <;> rw [hp] at hres <;> simp at hres
      | some act =>
        by_cases h1 : act = "create"
        · subst h1
          rcases hC : Create c ev0 with ⟨tr, r⟩
          have htr : ∀ x ∈ tr, noPub x = true := by
            intro x hx
            apply create_noPub c ev0
            rw [hC]
            exact hx
          cases r with
          | error e =>
            have hp := eh_create_err c fuel subject body hd hv hact hC
            rcases hres with hres | hres <;> rw [hp] at hres
            · injection hres with hres
              subst hres
              rcases List.mem_append.mp hmem with hmem | hmem
              · have := htr _ hmem
                simp [noPub] at this
              · exact ⟨{ ev0 with ErrorMessage := e }, pub_in_eventError hmem,
                  rfl, rfl, rfl⟩
            · simp at hres
          | ok ev2 =>
            obtain ⟨resp, _, he⟩ := Create_ok_out hC
            have hp := eh_create_ok c fuel subject body hd hv hact hC
            rcases hres with hres | hres <;> rw [hp] at hres
            · injection hres with hres
              subst hres
              rcases List.mem_append.mp hmem with hmem | hmem
              · have := htr _ hmem
                simp [noPub] at this
              · refine ⟨ev2, pub_in_eventComplete hmem, ?_, ?_, ?_⟩ <;> rw [he]
            · simp at hres
        · by_cases h2 : act = "update"
          · subst h2
            have hp := eh_update c fuel subject body hd hv hact
            rcases hres with hres | hres <;> rw [hp] at hres
            · injection hres with hres
              subst hres
              exact ⟨{ ev0 with ErrorMessage := ev0.subject ++ " not supported" },
                pub_in_eventError hmem, rfl, rfl, rfl⟩
            · simp at hres
          · by_cases h3 : act = "delete"
            · subst h3
              rcases hD : Delete c ev0 fuel with ⟨tr, r⟩
              have htr : ∀ x ∈ tr, noPub x = true := by
                intro x hx
                apply delete_noPub c ev0 fuel
                rw [hD]
                exact hx
              cases r with
              | none =>
                have hp := eh_delete_poll c fuel subject body hd hv hact hD
                rcases hres with hres | hres <;> rw [hp] at hres
                · simp at hres
                · injection hres with hres
                  subst hres
                  have := htr _ hmem
                  simp [noPub] at this
              | some r2 =>
                cases r2 with
                | error e =>
                  have hp := eh_delete_err c fuel subject body hd hv hact hD
                  rcases hres with hres | hres <;> rw [hp] at hres
                  · injection hres with hres
                    subst hres
                    rcases List.mem_append.mp hmem with hmem | hmem
                    · have := htr _ hmem
                      simp [noPub] at this
                    · exact ⟨{ ev0 with ErrorMessage := e },
                        pub_in_eventError hmem, rfl, rfl, rfl⟩
                  · simp at hres
                | ok u =>
                  cases u
                  have hp := eh_delete_ok c fuel subject body hd hv hact hD
                  rcases hres with hres | hres <;> rw [hp] at hres
                  · injection hres with hres
                    subst hres
                    rcases List.mem_append.mp hmem with hmem | hmem
                    · have := htr _ hmem
                      simp [noPub] at this
                    · exact ⟨ev0, pub_in_eventComplete hmem, rfl, rfl, rfl⟩
                  · simp at hres
            · by_cases h4 : act = "get"
              · subst h4
                have hp := eh_get c fuel subject body hd hv hact
                rcases hres with hres | hres <;> rw [hp] at hres
                · injection hres with hres
                  subst hres
                  exact ⟨{ ev0 with ErrorMessage := ev0.subject ++ " not supported" },
                    pub_in_eventError hmem, rfl, rfl, rfl⟩
                · simp at hres
              · have hp := eh_unknown c fuel subject body hd hv hact h1 h2 h3 h4
                rcases hres with hres | hres <;> rw [hp] at hres
                · injection hres with hres
                  subst hres
                  exact ⟨ev0, pub_in_eventComplete hmem, rfl, rfl, rfl⟩
                · simp at hres
  · intro e
    refine ⟨?_, ?_, ?_⟩ <;> simp [encodeEventFields]

set_option maxHeartbeats 1000000 in
/-- Claim C10 witness: the done publication of a concrete successful create
carries the request's region, secret and token verbatim. -/
theorem C10_witness :
    credsSerialized
      { New ("network.create.aws") bodyCW with
        DatacenterRegion := "r", DatacenterAccessKey := "k",
        DatacenterAccessToken := "t", VPCID := "v", Subnet := "10.0.0.0/16" }
      (marshalEvent
        { New ("network.create.aws") bodyCW with
          DatacenterRegion := "r", DatacenterAccessKey := "k",
          DatacenterAccessToken := "t", VPCID := "v", Subnet := "10.0.0.0/16",
          NetworkAWSID := "subnet-1", AvailabilityZone := "az-1" }) :=
  (C10_credentials_echoed cloudOK 5 ("network.create.aws") bodyCW
    { New ("network.create.aws") bodyCW with
      DatacenterRegion := "r", DatacenterAccessKey := "k",
      DatacenterAccessToken := "t", VPCID := "v", Subnet := "10.0.0.0/16" }
    [.cloud (.createSubnet "v" "10.0.0.0/16" ""),
     .pub ("network.create.aws" ++ doneSuffix)
       (marshalEvent
         { New ("network.create.aws") bodyCW with
           DatacenterRegion := "r", DatacenterAccessKey := "k",
           DatacenterAccessToken := "t", VPCID := "v", Subnet := "10.0.0.0/16",
           NetworkAWSID := "subnet-1", AvailabilityZone := "az-1" })]
    (by rfl) (Or.inl (by rfl))).1
    ("network.create.aws" ++ doneSuffix)
    (marshalEvent
      { New ("network.create.aws") bodyCW with
        DatacenterRegion := "r", DatacenterAccessKey := "k",
        DatacenterAccessToken := "t", VPCID := "v", Subnet := "10.0.0.0/16",
        NetworkAWSID := "subnet-1", AvailabilityZone := "az-1" })
    (List.Mem.tail _ (List.Mem.head _))

/-! ## Claim C2 -/

/-- Claim C2: validation checks exactly in order — VPC id, region, both
credentials, then (on a delete action) the assigned subnet identifier,
otherwise the CIDR range — returning the first failing check as its own
distinct error and never aggregating; when validation fails the handler
performs no cloud call; when all checks pass validation returns ok.  On the
subjects the worker subscribes to, "the action is delete" coincides with the
full-subject comparison the code performs. -/
theorem C2_validation_order (ev : Event)
    (hs : ev.subject = subjectCreate ∨ ev.subject = subjectDelete) :
    (((subjectParts ev.subject)[1]? = some ("delete")) ↔ ev.subject = subjectDelete) ∧
    (ev.VPCID = "" → Validate ev = some errDatacenterIDInvalid) ∧
    (ev.VPCID ≠ "" → ev.DatacenterRegion = "" →
      Validate ev = some errDatacenterRegionInvalid) ∧
    (ev.VPCID ≠ "" → ev.DatacenterRegion ≠ "" →
      (ev.DatacenterAccessKey = "" ∨ ev.DatacenterAccessToken = "") →
      Validate ev = some errDatacenterCredentialsInvalid) ∧
    (ev.VPCID ≠ "" → ev.DatacenterRegion ≠ "" → ev.DatacenterAccessKey ≠ "" →
      ev.DatacenterAccessToken ≠ "" →
      (((subjectParts ev.subject)[1]? = some ("delete")) →
        (ev.NetworkAWSID = "" → Validate ev = some errNetworkAWSIDInvalid) ∧
        (ev.NetworkAWSID ≠ "" → Validate ev = none)) ∧
      (((subjectParts ev.subject)[1]? ≠ some ("delete")) →
        (ev.Subnet = "" → Validate ev = some errNetworkSubnetInvalid) ∧
        (ev.Subnet ≠ "" → Validate ev = none))) ∧
    ([errDatacenterIDInvalid, errDatacenterRegionInvalid,
      errDatacenterCredentialsInvalid, errNetworkAWSIDInvalid,
      errNetworkSubnetInvalid].Nodup) ∧
    (∀ (c : Cloud) (fuel : Nat) (subject body : String) (ev2 : Event)
        (msg : String),
      unmarshalEvent body (New subject body) = some ev2 →
      Validate ev2 = some msg →
      eventHandler c fuel subject body = .finished (eventError ev2 msg) ∧
      cloudOps (eventError ev2 msg) = []) := by
  have hiff : ((subjectParts ev.subject)[1]? = some ("delete")) ↔
      ev.subject = subjectDelete := by
    rcases hs with h | h <;> rw [h] <;> decide
  refine ⟨hiff, ?_, ?_, ?_, ?_, by decide, ?_⟩
  · intro h1
    unfold Validate
    rw [if_pos h1]
  · intro h1 h2
    unfold Validate
    rw [if_neg h1, if_pos h2]
  · intro h1 h2 h3
    unfold Validate
    rw [if_neg h1, if_neg h2, if_pos h3]
  · intro h1 h2 h3 h4
    have hcred : ¬ (ev.DatacenterAccessKey = "" ∨ ev.DatacenterAccessToken = "") :=
      not_or.mpr ⟨h3, h4⟩
    constructor
    · intro hdel
      have hdel2 := hiff.mp hdel
      constructor
      · intro h5
        unfold Validate
        rw [if_neg h1, if_neg h2, if_neg hcred, if_pos hdel2, if_pos h5]
      · intro h5
        unfold Validate
        rw [if_neg h1, if_neg h2, if_neg hcred, if_pos hdel2, if_neg h5]
    · intro hndel
      have hndel2 : ¬ ev.subject = subjectDelete := fun hc => hndel (hiff.mpr hc)
      constructor
      · intro h5
        unfold Validate
        rw [if_neg h1, if_neg h2, if_neg hcred, if_neg hndel2, if_pos h5]
      · intro h5
        unfold Validate
        rw [if_neg h1, if_neg h2, if_neg hcred, if_neg hndel2, if_neg h5]
  · intro c fuel subject body ev2 msg hd hv
    refine ⟨eh_valFail c fuel subject body hd hv, ?_⟩
    simp [eventError, cloudOps]

/-- Claim C2 witness: a delete envelope with every earlier field present but
no assigned subnet identifier fails with exactly the subnet-identifier
error. -/
theorem C2_witness :
    Validate { evDelW with NetworkAWSID := "" } = some errNetworkAWSIDInvalid :=
  ((((C2_validation_order { evDelW with NetworkAWSID := "" }
      (Or.inr rfl)).2.2.2.2.1 (by decide) (by decide) (by decide) (by decide)).1
      (by decide)).1 rfl)

/-! ## Claim C6 -/

/-- Claim C6: when the payload does not decode, the raw still-undecoded bytes
are republished verbatim to `<subject>.error` with no structured message —
and nothing else happens — unlike a validation failure, which publishes the
serialized envelope carrying the specific message. -/
theorem C6_raw_error_bytes (c : Cloud) (fuel : Nat) (subject body : String)
    (hd : unmarshalEvent body (New subject body) = none) :
    eventHandler c fuel subject body =
      .finished [.pub (subject ++ errSuffix) body] ∧
    (∀ (body2 : String) (ev2 : Event) (msg : String),
      unmarshalEvent body2 (New subject body2) = some ev2 →
      Validate ev2 = some msg →
      eventHandler c fuel subject body2 =
        .finished [.pub (subject ++ errSuffix)
          (marshalEvent { ev2 with ErrorMessage := msg })]) := by
  constructor
  · exact eh_decodeFail c fuel subject body hd
  · intro body2 ev2 msg hd2 hv2
    obtain ⟨hsubj, _⟩ := unmarshal_routing hd2
    rw [eh_valFail c fuel subject body2 hd2 hv2]
    simp [eventError, hsubj]

/-- Claim C6 witness: a concrete malformed payload is republished verbatim to
the error topic. -/
theorem C6_witness :
    eventHandler cloudOK 1 ("network.create.aws") ("garbage") =
      .finished [.pub ("network.create.aws" ++ errSuffix) ("garbage")] :=
  (C6_raw_error_bytes cloudOK 1 ("network.create.aws") ("garbage") (by rfl)).1

/-! ## Claim C8 -/

/-- Claim C8: on the subjects the worker subscribes to, no handler run
panics, whatever the payload or cloud behaviour: every result is a normal
return (or a still-running delete poll).  In particular the `log.Panic`
branch inside the error publication is unreachable because serializing this
struct cannot fail (marshalling is total in the model for that reason), and
the `parts[1]` indexing cannot panic because both subscribed subjects have a
second dot-segment. -/
theorem C8_never_panics (subject : String)
    (hs : subject = subjectCreate ∨ subject = subjectDelete) :
    ∀ (c : Cloud) (fuel : Nat) (body : String),
      isPanicked (eventHandler c fuel subject body) = false := by
  intro c fuel body
  cases hd : unmarshalEvent body (New subject body) with
  | none => rw [eh_decodeFail c fuel subject body hd]; rfl
  | some ev =>
    cases hv : Validate ev with
    | some msg => rw [eh_valFail c fuel subject body hd hv]; rfl
    | none =>
      rcases hs with h | h <;> subst h
      · have hact : (subjectParts subjectCreate)[1]? = some ("create") := by decide
        rcases hC : Create c ev with ⟨tr, r⟩
        cases r with
        | error e => rw [eh_create_err c fuel subjectCreate body hd hv hact hC]; rfl
        | ok ev2 => rw [eh_create_ok c fuel subjectCreate body hd hv hact hC]; rfl
      · have hact : (subjectParts subjectDelete)[1]? = some ("delete") := by decide
        rcases hD : Delete c ev fuel with ⟨tr, r⟩
        cases r with
        | none => rw [eh_delete_poll c fuel subjectDelete body hd hv hact hD]; rfl
        | some r2 =>
          cases r2 with
          | error e => rw [eh_delete_err c fuel subjectDelete body hd hv hact hD]; rfl
          | ok u =>
            cases u
            rw [eh_delete_ok c fuel subjectDelete body hd hv hact hD]; rfl

/-- Claim C8 witness: a malformed payload on the create subject does not
panic the worker. -/
theorem C8_witness :
    isPanicked (eventHandler cloudOK 0 subjectCreate ("garbage")) = false :=
  C8_never_panics subjectCreate (Or.inl rfl) cloudOK 0 ("garbage")

/-! ## Claim C9 -/

/-- Claim C9: an envelope that decodes and validates but whose subject's
second dot-segment is none of create, update, delete or get is dispatched to
no handler at all: no cloud call is made and the serialized envelope is
published to `<subject>.done` — the unrecognized action is reported as
success. -/
theorem C9_unknown_action_done (c : Cloud) (fuel : Nat) (subject body : String)
    (ev : Event) (act : String)
    (hd : unmarshalEvent body (New subject body) = some ev)
    (hv : Validate ev = none)
    (hact : (subjectParts subject)[1]? = some act)
    (h1 : act ≠ "create") (h2 : act ≠ "update") (h3 : act ≠ "delete")
    (h4 : act ≠ "get") :
    eventHandler c fuel subject body =
      .finished [.pub (subject ++ doneSuffix) (marshalEvent ev)] ∧
    cloudOps [Effect.pub (subject ++ doneSuffix) (marshalEvent ev)] = [] := by
  obtain ⟨hsubj, _⟩ := unmarshal_routing hd
  constructor
  · rw [eh_unknown c fuel subject body hd hv hact h1 h2 h3 h4]
    simp [eventComplete, hsubj]
  · simp [cloudOps]

/-- Claim C9 witness: a validated envelope on subject `network.noop.aws` is
published to `network.noop.aws.done` with no cloud call. -/
theorem C9_witness :
    eventHandler cloudOK 1 ("network.noop.aws") bodyCW =
      .finished [.pub ("network.noop.aws" ++ doneSuffix)
        (marshalEvent { New ("network.noop.aws") bodyCW with
          DatacenterRegion := "r", DatacenterAccessKey := "k",
          DatacenterAccessToken := "t", VPCID := "v",
          Subnet := "10.0.0.0/16" })] ∧
    cloudOps [Effect.pub ("network.noop.aws" ++ doneSuffix)
      (marshalEvent { New ("network.noop.aws") bodyCW with
        DatacenterRegion := "r", DatacenterAccessKey := "k",
        DatacenterAccessToken := "t", VPCID := "v",
        Subnet := "10.0.0.0/16" })] = [] :=
  C9_unknown_action_done cloudOK 1 ("network.noop.aws") bodyCW
    { New ("network.noop.aws") bodyCW with
      DatacenterRegion := "r", DatacenterAccessKey := "k",
      DatacenterAccessToken := "t", VPCID := "v", Subnet := "10.0.0.0/16" }
    ("noop") (by rfl) (by rfl) (by decide) (by decide) (by decide) (by decide)
    (by decide)

/-! ## Claim C7: the decode/serialize round trip -/

theorem dataMk (l : List Char) : (String.mk l).data = l := rfl

theorem mkData (s : String) : String.mk s.data = s := by
  cases s
  rfl

theorem lengthMk (l : List Char) : (String.mk l).length = l.length := rfl

theorem skipWs_notWs {c : Char} {cs : List Char} (h : isWs c = false) :
    skipWs (c :: cs) = c :: cs := by
  simp [skipWs, h]

theorem plainChar_props {c : Char} (h : plainChar c = true) :
    c ≠ '"' ∧ c ≠ '\\' ∧ c ≠ '<' ∧ c ≠ '>' ∧ c ≠ '&' ∧
    ¬ c.toNat < 0x20 ∧ c.toNat ≠ 0x2028 ∧ c.toNat ≠ 0x2029 := by
  have h' : ¬ (c = '"' ∨ c = '\\' ∨ c = '<' ∨ c = '>' ∨ c = '&' ∨
      c.toNat < 0x20 ∨ c.toNat = 0x2028 ∨ c.toNat = 0x2029) := by
    simpa [plainChar] using h
  push_neg at h'
  obtain ⟨a1, a2, a3, a4, a5, a6, a7, a8⟩ := h'
  exact ⟨a1, a2, a3, a4, a5, Nat.not_lt.mpr a6, a7, a8⟩

theorem escChar_plain {c : Char} (h : plainChar c = true) : escChar c = [c] := by
  obtain ⟨h1, h2, h3, h4, h5, h6, h7, h8⟩ := plainChar_props h
  have hn : ¬ (c = '\n') := by
    intro hc
    rw [hc] at h6
    exact h6 (by decide)
  have hr : ¬ (c = '\r') := by
    intro hc
    rw [hc] at h6
    exact h6 (by decide)
  have ht : ¬ (c = '\t') := by
    intro hc
    rw [hc] at h6
    exact h6 (by decide)
  have hor1 : ¬ (c = '<' ∨ c = '>' ∨ c = '&' ∨ c.toNat < 0x20) := by
    push_neg
    exact ⟨h3, h4, h5, Nat.not_lt.mp h6⟩
  have hor2 : ¬ (c.toNat = 0x2028 ∨ c.toNat = 0x2029) := by
    push_neg
    exact ⟨h7, h8⟩
  unfold escChar
  rw [if_neg h1, if_neg h2, if_neg hn, if_neg hr, if_neg ht, if_neg hor1,
    if_neg hor2]

theorem escList_plain :
    ∀ {l : List Char}, l.all plainChar = true → escList l = l := by
  intro l
  induction l with
  | nil => intro _; rfl
  | cons c cs ih =>
    intro h
    rw [List.all_cons, Bool.and_eq_true] at h
    simp [escList, escChar_plain h.1, ih h.2]

theorem parseStr_plain :
    ∀ (l : List Char), l.all plainChar = true → ∀ (rest : List Char),
      parseStrChars (l ++ '"' :: rest) = some (l, rest) := by
  intro l
  induction l with
  | nil => intro _ rest; simp [parseStrChars.eq_def]
  | cons c cs ih =>
    intro h rest
    rw [List.all_cons, Bool.and_eq_true] at h
    obtain ⟨h1, h2, _, _, _, h6, _, _⟩ := plainChar_props h.1
    rw [parseStrChars.eq_def]
    simp [h1, h2, h6, ih h.2 rest]

theorem parseVal_flat {v : JVal} (hv : flatVal v = true) (g : Nat)
    (rest : List Char) :
    parseVal (g + 1) (renderChars v ++ rest) = some (v, rest) := by
  cases v with
  | str s =>
    rw [flatVal] at hv
    have hin : renderChars (.str s) ++ rest =
        '"' :: (s.data ++ ('"' :: rest)) := by
      simp [renderChars, quoteChars, escList_plain hv]
    rw [hin]
    rw [parseVal]
    rw [skipWs_notWs (by decide)]
    simp [parseStr_plain s.data hv rest, mkData]
  | bool b =>
    cases b with
    | false =>
      have hr : renderChars (JVal.bool false) ++ rest =
          'f' :: (['a', 'l', 's', 'e'] ++ rest) := rfl
      rw [hr]
      rw [parseVal]
      rw [skipWs_notWs (by decide)]
      simp [expectChars]
    | true =>
      have hr : renderChars (JVal.bool true) ++ rest =
          't' :: (['r', 'u', 'e'] ++ rest) := rfl
      rw [hr]
      rw [parseVal]
      rw [skipWs_notWs (by decide)]
      simp [expectChars]
  | num lx => simp [flatVal] at hv
  | null => simp [flatVal] at hv
  | obj ms => simp [flatVal] at hv
  | arr es => simp [flatVal] at hv

theorem renderMembers_len (fs : List (String × JVal)) :
    fs.length ≤ (renderMembersChars fs).length := by
  induction fs with
  | nil => simp [renderMembersChars]
  | cons kv fs ih =>
    cases fs with
    | nil =>
      simp only [renderMembersChars, quoteChars, List.length_append,
        List.length_cons, List.length_nil]
      omega
    | cons kv2 fs2 =>
      simp only [renderMembersChars, quoteChars, List.length_append,
        List.length_cons, List.length_nil] at ih ⊢
      omega

theorem parseMembers_flat :
    ∀ (fs : List (String × JVal)), fs ≠ [] → flatMembers fs = true →
      ∀ (ac : Bool) (g : Nat), fs.length + 1 ≤ g → ∀ (rest : List Char),
        parseMembers g ac (renderMembersChars fs ++ '\x7d' :: rest) =
          some (fs, rest) := by
  intro fs
  induction fs with
  | nil => intro h; exact absurd rfl h
  | cons kv fs ih =>
    intro _ hf ac g hg rest
    rcases kv with ⟨k, v⟩
    rw [flatMembers, List.all_cons, Bool.and_eq_true] at hf
    obtain ⟨hkv, hf2⟩ := hf
    rw [Bool.and_eq_true] at hkv
    obtain ⟨hk, hv⟩ := hkv
    obtain ⟨g1, rfl⟩ : ∃ g1, g = g1 + 1 := ⟨g - 1, by omega⟩
    simp only [List.length_cons] at hg
    cases fs with
    | nil =>
      obtain ⟨g2, rfl⟩ : ∃ g2, g1 = g2 + 1 := ⟨g1 - 1, by omega⟩
      have hin : renderMembersChars [(k, v)] ++ '\x7d' :: rest =
          '"' :: (k.data ++ ('"' :: (':' ::
            (renderChars v ++ '\x7d' :: rest)))) := by
        simp [renderMembersChars, quoteChars, escList_plain hk]
      rw [hin]
      rw [parseMembers]
      rw [skipWs_notWs (by decide)]
      simp [parseStr_plain k.data hk, skipWs, isWs, parseVal_flat hv g2,
        mkData]
    | cons kv2 fs2 =>
      obtain ⟨g2, rfl⟩ : ∃ g2, g1 = g2 + 1 := ⟨g1 - 1, by omega⟩
      have hin : renderMembersChars ((k, v) :: kv2 :: fs2) ++ '\x7d' :: rest =
          '"' :: (k.data ++ ('"' :: (':' :: (renderChars v ++ (',' ::
            (renderMembersChars (kv2 :: fs2) ++ '\x7d' :: rest)))))) := by
        simp [renderMembersChars, quoteChars, escList_plain hk]
      rw [hin]
      rw [parseMembers]
      rw [skipWs_notWs (by decide)]
      have hrec := ih (by simp) hf2 false (g2 + 1)
        (by simp at hg ⊢; omega) rest
      simp [parseStr_plain k.data hk, skipWs, isWs, parseVal_flat hv g2,
        hrec, mkData]

theorem encodeEventFields_ne_nil (ev : Event) : encodeEventFields ev ≠ [] := by
  by_cases hN : ev.NetworkAWSID = "" <;> by_cases hE : ev.ErrorMessage = "" <;>
    simp [encodeEventFields, hN, hE]

theorem encode_flat {ev : Event} (h : plainEv ev = true) :
    flatMembers (encodeEventFields ev) = true := by
  have h' := h
  simp only [plainEv, Bool.and_eq_true] at h'
  obtain ⟨⟨⟨⟨⟨⟨⟨⟨⟨⟨⟨h1, h2⟩, h3⟩, h4⟩, h5⟩, h6⟩, h7⟩, h8⟩, h9⟩, h10⟩,
    h11⟩, h12⟩ := h'
  by_cases hN : ev.NetworkAWSID = "" <;> by_cases hE : ev.ErrorMessage = "" <;>
    simp [flatMembers, encodeEventFields, flatVal, hN, hE, h1, h2, h3, h4,
      h5, h6, h7, h8, h9, h10, h11, h12] <;>
    decide

theorem overlay_encode (ev : Event) (s b : String) :
    (encodeEventFields ev).foldlM applyField (New s b) =
      some { ev with subject := s, body := b } := by
  by_cases hN : ev.NetworkAWSID = "" <;> by_cases hE : ev.ErrorMessage = "" <;>
    simp only [encodeEventFields, hN, hE, ite_true, ite_false, if_neg,
      eq_self_iff_true] <;>
    rfl

theorem parseJson_marshal {ev : Event} (hplain : plainEv ev = true) :
    parseJson (marshalEvent ev) = some (.obj (encodeEventFields ev)) := by
  have hdata : (marshalEvent ev).data =
      '\x7b' :: (renderMembersChars (encodeEventFields ev) ++ ['\x7d']) := rfl
  have hlen : (marshalEvent ev).length + 1 =
      ((renderMembersChars (encodeEventFields ev) ++ ['\x7d']).length + 1) + 1 := by
    have : (marshalEvent ev).length = (marshalEvent ev).data.length := rfl
    rw [this, hdata]
    simp
  unfold parseJson
  rw [hdata, hlen]
  rw [parseVal]
  rw [skipWs_notWs (by decide)]
  have hfuel : (encodeEventFields ev).length + 1 ≤
      (renderMembersChars (encodeEventFields ev) ++ ['\x7d']).length + 1 := by
    have := renderMembers_len (encodeEventFields ev)
    simp only [List.length_append, List.length_cons, List.length_nil]
    omega
  have hmem := parseMembers_flat (encodeEventFields ev)
    (encodeEventFields_ne_nil ev) (encode_flat hplain) true
    ((renderMembersChars (encodeEventFields ev) ++ ['\x7d']).length + 1)
    hfuel []
  simp at hmem
  simp [hmem, skipWs]

/-! ## Claim C7 -/

/-- Claim C7 counterexample: the payload `{"name":"x"}` decodes successfully,
yet serializing the decoded envelope does not reproduce the original bytes —
the serializer emits every non-omitted field in declared order, so the round
trip yields the canonical form, not the input. -/
theorem C7_counterexample :
    unmarshalEvent ("\x7b\"name\":\"x\"\x7d")
        (New ("network.create.aws") ("\x7b\"name\":\"x\"\x7d")) =
      some { New ("network.create.aws") ("\x7b\"name\":\"x\"\x7d") with
             Name := "x" } ∧
    marshalEvent { New ("network.create.aws") ("\x7b\"name\":\"x\"\x7d") with
                   Name := "x" } ≠ "\x7b\"name\":\"x\"\x7d" :=
  ⟨by rfl, by decide⟩

/-- Claim C7, amended: decoding then serializing reproduces the original
wire bytes exactly for canonical payloads — the bytes `json.Marshal` itself
produces for an envelope (fields in declared order with the fixed names,
`network_aws_id` and `error_message` omitted when empty; modelled here for
field values with no JSON-escaping-required characters).  Decoding such a
payload into a fresh envelope preserves every accepted field, and
serializing the decoded envelope is byte-identical to the original. -/
theorem C7_canonical_roundtrip (ev : Event) (s b : String)
    (hplain : plainEv ev = true) :
    unmarshalEvent (marshalEvent ev) (New s b) =
      some { ev with subject := s, body := b } ∧
    marshalEvent { ev with subject := s, body := b } = marshalEvent ev := by
  constructor
  · unfold unmarshalEvent
    rw [parseJson_marshal hplain]
    exact overlay_encode ev s b
  · rfl

/-- Claim C7 witness: a concrete canonical payload round-trips to its own
bytes. -/
theorem C7_witness :
    unmarshalEvent (marshalEvent evPrivW) (New ("s") ("b")) =
      some { evPrivW with subject := "s", body := "b" } ∧
    marshalEvent { evPrivW with subject := "s", body := "b" } =
      marshalEvent evPrivW :=
  C7_canonical_roundtrip evPrivW ("s") ("b") (by decide)

end NetworkAws
